import Mathlib

/-!
# SDL++ : ownership and lifetime of native handles, the haptic effect registry,
# geometry, exceptions, events, rendering and raw pixels

A shallow embedding of the resource-owning wrapper classes of SDL++
(`Surface`, `Texture`, `Renderer`, `Window`, `SharedObject`, `Cursor`, `Haptic`,
`Joystick`, `GameController`), of the effect registry kept by `Haptic`, of the
value types `Vec2i` and `Rect`, of `Exception`, `Event` and `Event::EventFilter`,
of `Texture::Lock`, of the draw colour of `Renderer` and of `Pixel`.

* A native handle is a natural number, `0` being `nullptr`.
* A member function that calls into the native library returns the native calls
  it made, in order, where a property is about those calls.
* A member function that can throw returns `Except`; unless the function returns
  the state of the object next to the outcome, it throws before it modifies
  anything, so an error leaves every object in the state it had.
* A native function whose result the wrapper inspects is a parameter; state that
  the native library keeps (error slot, draw colour, input grab, installed event
  filter) is an explicit value.
* A C `int` is an `Int`; sums, differences and products go through `wrapInt32`
  where the source computes them in `int`. A division by zero and the
  conversion of a NaN are `none`.
-/

namespace SDL

/-! ## Native side -/

/-- A native handle (`SDL_Surface *`, `SDL_Joystick *`, `void *`, ...). -/
abbrev Handle := Nat

/-- The null handle. -/
def nullptr : Handle := 0

/-- A native effect identifier (`int`). -/
abbrev EffectId := Int

/-- The native teardown calls the wrappers make, with their arguments. -/
inductive NativeCall where
  | SDL_FreeSurface (h : Handle)
  | SDL_DestroyTexture (h : Handle)
  | SDL_DestroyRenderer (h : Handle)
  | SDL_DestroyWindow (h : Handle)
  | SDL_UnloadObject (h : Handle)
  | SDL_FreeCursor (h : Handle)
  | SDL_HapticClose (h : Handle)
  | SDL_JoystickClose (h : Handle)
  | SDL_GameControllerClose (h : Handle)
  | SDL_HapticDestroyEffect (h : Handle) (effect : EffectId)
  deriving DecidableEq, Repr

/-- The state of the two objects after `self = std::move(other)`, and the native
calls the assignment made. -/
structure MoveResult (W : Type) where
  self : W
  other : W
  calls : List NativeCall
  deriving DecidableEq, Repr

/-! ## Exception.hpp -/

/-- Embeds `SDL::Exception`: the message returned by `what()`. -/
structure Exception where
  m_what : String
  deriving DecidableEq, Repr

/-- Embeds `Exception::Exception(std::string &&function)`; `sdlError` is the string
`Error::get()` returns at that moment. -/
def Exception.ctor (function : String) (sdlError : String) : Exception :=
  { m_what := "Function: '" ++ function ++ "', SDL error: " ++ sdlError }

/-! ## Surface.hpp -/

/-- Embeds `class Surface`: the data member `m_surface`. -/
structure Surface where
  m_surface : Handle
  deriving DecidableEq, Repr

/-- Embeds `Surface &operator =(Surface &&other)`. -/
def Surface.moveAssign (self other : Surface) : MoveResult Surface :=
  if self.m_surface ≠ other.m_surface then
    { self := { m_surface := other.m_surface }
      other := { m_surface := nullptr }
      calls := [NativeCall.SDL_FreeSurface self.m_surface] }
  else
    { self := self, other := other, calls := [] }

/-- Embeds `Surface(Surface &&other)`: the new object starts from the default member
initializer `m_surface = nullptr` and runs `*this = std::move(other)`. -/
def Surface.moveCtor (other : Surface) : MoveResult Surface :=
  Surface.moveAssign { m_surface := nullptr } other

/-- Embeds `~Surface()`. -/
def Surface.destructor (self : Surface) : List NativeCall :=
  [NativeCall.SDL_FreeSurface self.m_surface]

/-! ## Texture.hpp -/

/-- Embeds `class Texture`: the data member `m_texture`. -/
structure Texture where
  m_texture : Handle
  deriving DecidableEq, Repr

/-- Embeds `Texture &operator =(Texture &&other)`. -/
def Texture.moveAssign (self other : Texture) : MoveResult Texture :=
  if self.m_texture ≠ other.m_texture then
    { self := { m_texture := other.m_texture }
      other := { m_texture := nullptr }
      calls := [NativeCall.SDL_DestroyTexture self.m_texture] }
  else
    { self := self, other := other, calls := [] }

/-- Embeds `Texture(Texture &&other)`. -/
def Texture.moveCtor (other : Texture) : MoveResult Texture :=
  Texture.moveAssign { m_texture := nullptr } other

/-- Embeds `~Texture()`. -/
def Texture.destructor (self : Texture) : List NativeCall :=
  [NativeCall.SDL_DestroyTexture self.m_texture]

/-! ## Render.hpp -/

/-- Embeds `class Renderer`: the data member `m_renderer`. -/
structure Renderer where
  m_renderer : Handle
  deriving DecidableEq, Repr

/-- Embeds `Renderer &operator=(Renderer &&other)`. -/
def Renderer.moveAssign (self other : Renderer) : MoveResult Renderer :=
  if self.m_renderer ≠ other.m_renderer then
    { self := { m_renderer := other.m_renderer }
      other := { m_renderer := nullptr }
      calls := [NativeCall.SDL_DestroyRenderer self.m_renderer] }
  else
    { self := self, other := other, calls := [] }

/-- Embeds `Renderer(Renderer &&other)`. -/
def Renderer.moveCtor (other : Renderer) : MoveResult Renderer :=
  Renderer.moveAssign { m_renderer := nullptr } other

/-- Embeds `~Renderer()`. -/
def Renderer.destructor (self : Renderer) : List NativeCall :=
  [NativeCall.SDL_DestroyRenderer self.m_renderer]

/-! ## Video.hpp -/

/-- Embeds `class Window`: the data member `m_window`. -/
structure Window where
  m_window : Handle
  deriving DecidableEq, Repr

/-- Embeds `Window(const std::string &title, const Vec2i &size, Uint32 flags)`;
`created` is what `SDL_CreateWindow(title, centered, centered, size.x, size.y, flags)`
returned. -/
def Window.ctor (created : Handle) (sdlError : String) : Except Exception Window :=
  if created = nullptr then
    Except.error (Exception.ctor "SDL_CreateWindow" sdlError)
  else
    Except.ok { m_window := created }

/-- Embeds `Window &operator=(Window &&other)`. -/
def Window.moveAssign (self other : Window) : MoveResult Window :=
  if self.m_window ≠ other.m_window then
    { self := { m_window := other.m_window }
      other := { m_window := nullptr }
      calls := [NativeCall.SDL_DestroyWindow self.m_window] }
  else
    { self := self, other := other, calls := [] }

/-- Embeds `Window(Window &&other)`. -/
def Window.moveCtor (other : Window) : MoveResult Window :=
  Window.moveAssign { m_window := nullptr } other

/-- Embeds `virtual ~Window()`. -/
def Window.destructor (self : Window) : List NativeCall :=
  [NativeCall.SDL_DestroyWindow self.m_window]

/-! ## SharedObject.hpp -/

/-- Embeds `class SharedObject`: the data member `m_handle`. -/
structure SharedObject where
  m_handle : Handle
  deriving DecidableEq, Repr

/-- Embeds `SharedObject(const std::string &filename)`; `SDL_LoadObject` is the native
loader. -/
def SharedObject.ctor (SDL_LoadObject : String → Handle) (filename : String)
    (sdlError : String) : Except Exception SharedObject :=
  if SDL_LoadObject filename = nullptr then
    Except.error (Exception.ctor "SDL_LoadObject" sdlError)
  else
    Except.ok { m_handle := SDL_LoadObject filename }

/-- Embeds `SharedObject &operator =(SharedObject &&other)`. -/
def SharedObject.moveAssign (self other : SharedObject) : MoveResult SharedObject :=
  if self.m_handle ≠ other.m_handle then
    { self := { m_handle := other.m_handle }
      other := { m_handle := nullptr }
      calls := if self.m_handle ≠ nullptr then [NativeCall.SDL_UnloadObject self.m_handle] else [] }
  else
    { self := self, other := other, calls := [] }

/-- Embeds `SharedObject(SharedObject &&other)`. -/
def SharedObject.moveCtor (other : SharedObject) : MoveResult SharedObject :=
  SharedObject.moveAssign { m_handle := nullptr } other

/-- Embeds `~SharedObject()`. -/
def SharedObject.destructor (self : SharedObject) : List NativeCall :=
  if self.m_handle ≠ nullptr then [NativeCall.SDL_UnloadObject self.m_handle] else []

/-! ## Mouse.hpp -/

/-- Embeds `class Cursor`: the data member `m_cursor`. -/
structure Cursor where
  m_cursor : Handle
  deriving DecidableEq, Repr

/-- Embeds `Cursor &operator =(Cursor &&other)`. -/
def Cursor.moveAssign (self other : Cursor) : MoveResult Cursor :=
  if self.m_cursor ≠ other.m_cursor then
    { self := { m_cursor := other.m_cursor }
      other := { m_cursor := nullptr }
      calls := [] }
  else
    { self := self, other := other, calls := [] }

/-- Embeds `Cursor(Cursor &&other)`. -/
def Cursor.moveCtor (other : Cursor) : MoveResult Cursor :=
  Cursor.moveAssign { m_cursor := nullptr } other

/-- Embeds `~Cursor()`. -/
def Cursor.destructor (self : Cursor) : List NativeCall :=
  if self.m_cursor ≠ nullptr then [NativeCall.SDL_FreeCursor self.m_cursor] else []

/-! ## Haptic.hpp -/

/-- What a member function can throw: an `SDL::Exception`, or the
`std::out_of_range` of `std::vector::at`. -/
inductive Thrown where
  | exception (e : Exception)
  | out_of_range
  deriving DecidableEq, Repr

/-- Embeds `class Haptic`: the data members `m_haptic` and `myEffects`. -/
structure Haptic where
  m_haptic : Handle
  myEffects : List EffectId
  deriving DecidableEq, Repr

/-- Embeds `Haptic::InstalledEffect::invalidIndex`, the largest `size_t` (64 bits). -/
def InstalledEffect.invalidIndex : Nat := 2 ^ 64 - 1

/-- Embeds `class Haptic::InstalledEffect`: the data members `m_index` and `m_owner`;
`m_owner` is `none` for `nullptr`, otherwise the address of a `Haptic` object. -/
structure InstalledEffect where
  m_index : Nat
  m_owner : Option Nat
  deriving DecidableEq, Repr

/-- Embeds `InstalledEffect() = default`. -/
def InstalledEffect.default : InstalledEffect :=
  { m_index := InstalledEffect.invalidIndex, m_owner := none }

/-- Embeds `union Haptic::Effect`: the leading `type` field (`Uint16`) and the bytes of
the payload that follows it. -/
structure Effect where
  type : Nat
  payload : List Nat
  deriving DecidableEq, Repr

/-- Embeds `SDL_Haptic *ptr() const`. -/
def Haptic.ptr (self : Haptic) : Handle := self.m_haptic

/-- Embeds `Haptic()`. -/
def Haptic.default : Haptic := { m_haptic := nullptr, myEffects := [] }

/-- Embeds `Haptic(int m_hapticindex)`; `SDL_HapticOpen` is the native factory. -/
def Haptic.ctor (SDL_HapticOpen : Int → Handle) (m_hapticindex : Int)
    (sdlError : String) : Except Exception Haptic :=
  if SDL_HapticOpen m_hapticindex = nullptr then
    Except.error (Exception.ctor "SDL_HapticOpen" sdlError)
  else
    Except.ok { m_haptic := SDL_HapticOpen m_hapticindex, myEffects := [] }

/-- Embeds `Haptic(SDL_Joystick *joystick)`; `SDL_HapticOpenFromJoystick` is the native
factory. -/
def Haptic.ctorFromJoystick (SDL_HapticOpenFromJoystick : Handle → Handle)
    (joystick : Handle) (sdlError : String) : Except Exception Haptic :=
  if SDL_HapticOpenFromJoystick joystick = nullptr then
    Except.error (Exception.ctor "SDL_HapticOpenFromJoystick" sdlError)
  else
    Except.ok { m_haptic := SDL_HapticOpenFromJoystick joystick, myEffects := [] }

/-- Embeds `~Haptic()`. -/
def Haptic.destructor (self : Haptic) : List NativeCall :=
  if self.m_haptic ≠ nullptr then [NativeCall.SDL_HapticClose self.m_haptic] else []

/-- Embeds `Haptic& operator=(Haptic&& other)`. The vector moved from is left empty. -/
def Haptic.moveAssign (self other : Haptic) : MoveResult Haptic :=
  if self.m_haptic ≠ other.m_haptic then
    { self := { m_haptic := other.m_haptic, myEffects := other.myEffects }
      other := { m_haptic := nullptr, myEffects := [] }
      calls := [] }
  else
    { self := self, other := other, calls := [] }

/-- Embeds `Haptic(Haptic&& other)`. -/
def Haptic.moveCtor (other : Haptic) : MoveResult Haptic :=
  Haptic.moveAssign { m_haptic := nullptr, myEffects := [] } other

/-- Embeds `bool valid() const`. -/
def Haptic.valid (self : Haptic) : Bool := self.m_haptic != nullptr

/-- Embeds `unsigned getCapabilities() const`; `SDL_HapticQuery` is the native query. -/
def Haptic.getCapabilities (self : Haptic) (SDL_HapticQuery : Handle → Nat)
    (sdlError : String) : Except Thrown Nat :=
  if !self.valid then
    Except.ok 0
  else
    let capabilities := SDL_HapticQuery self.m_haptic
    if capabilities = 0 then
      Except.error (Thrown.exception (Exception.ctor "SDL_HapticQuery" sdlError))
    else
      Except.ok capabilities

/-- Embeds `bool isCapableOf(int m_hapticflag) const`. -/
def Haptic.isCapableOf (self : Haptic) (SDL_HapticQuery : Handle → Nat)
    (sdlError : String) (m_hapticflag : Nat) : Except Thrown Bool :=
  match self.getCapabilities SDL_HapticQuery sdlError with
  | Except.error t => Except.error t
  | Except.ok capabilities => Except.ok ((m_hapticflag &&& capabilities) != 0)

/-- Embeds `InstalledEffect newEffect(const Effect &e)`; `thisPtr` is the address of the
object, `SDL_HapticNewEffect` the native call. Returns the handle and the new
state of the object. -/
def Haptic.newEffect (self : Haptic) (thisPtr : Nat) (SDL_HapticQuery : Handle → Nat)
    (SDL_HapticNewEffect : Handle → Effect → EffectId) (sdlError : String)
    (e : Effect) : Except Thrown (InstalledEffect × Haptic) :=
  match self.isCapableOf SDL_HapticQuery sdlError e.type with
  | Except.error t => Except.error t
  | Except.ok false => Except.ok (InstalledEffect.default, self)
  | Except.ok true =>
    let rawId := SDL_HapticNewEffect self.m_haptic e
    if rawId < 0 then
      Except.error (Thrown.exception (Exception.ctor "SDL_HapticNewEffect" sdlError))
    else
      let pushed := self.myEffects ++ [rawId]
      Except.ok ({ m_index := pushed.length - 1, m_owner := some thisPtr },
                 { self with myEffects := pushed })

/-- Embeds `EffectList::size_type registeredEffectCount() const`. -/
def Haptic.registeredEffectCount (self : Haptic) : Nat := self.myEffects.length

/-- Embeds `EffectId getEffectId(const InstalledEffect &h) const`: the bounds-checked
`myEffects.at(h.m_index)`. -/
def Haptic.getEffectId (self : Haptic) (h : InstalledEffect) : Except Thrown EffectId :=
  match self.myEffects[h.m_index]? with
  | some id => Except.ok id
  | none => Except.error Thrown.out_of_range

/-- One iteration of the loop of `removeEffect`:
`if (myEffects[i] == e) myEffects[i] = -1;`. -/
def Haptic.removeEffectStep (e : EffectId) (effects : List EffectId) (i : Nat) :
    List EffectId :=
  if effects[i]? = some e then effects.set i (-1) else effects

/-- Embeds `void removeEffect(EffectId e)`: the loop over `i = 0 .. nbEffects - 1`. -/
def Haptic.removeEffect (self : Haptic) (e : EffectId) : Haptic :=
  { self with
    myEffects :=
      (List.range self.myEffects.length).foldl (Haptic.removeEffectStep e) self.myEffects }

/-- Embeds `~InstalledEffect()`; `owner` is the `Haptic` object `m_owner` points to when
it is not null. Returns the new state of that object and the native calls made;
an exception leaving `getEffectId` is reported as the error. -/
def InstalledEffect.destructor (self : InstalledEffect) (owner : Haptic) :
    Except Thrown (Haptic × List NativeCall) :=
  if self.m_owner.isSome && self.m_index != InstalledEffect.invalidIndex then
    match owner.getEffectId self with
    | Except.error t => Except.error t
    | Except.ok myRealId =>
      Except.ok (owner.removeEffect myRealId,
                 [NativeCall.SDL_HapticDestroyEffect owner.ptr myRealId])
  else
    Except.ok (owner, [])

/-! ## Joystick.hpp -/

/-- Embeds `class Joystick`: the data members `m_joystick` and `m_owner`. -/
structure Joystick where
  m_joystick : Handle
  m_owner : Bool
  deriving DecidableEq, Repr

/-- Embeds `Joystick()`. -/
def Joystick.default : Joystick := { m_joystick := nullptr, m_owner := false }

/-- Embeds `Joystick(int index)`; `SDL_JoystickOpen` is the native factory. -/
def Joystick.ctor (SDL_JoystickOpen : Int → Handle) (index : Int)
    (sdlError : String) : Except Exception Joystick :=
  if SDL_JoystickOpen index = nullptr then
    Except.error (Exception.ctor "SDL_JoystickOpen" sdlError)
  else
    Except.ok { m_joystick := SDL_JoystickOpen index, m_owner := true }

/-- Embeds `Joystick(SDL_Joystick *joystick)`. -/
def Joystick.ctorFromPointer (joystick : Handle) : Joystick :=
  { m_joystick := joystick, m_owner := true }

/-- Embeds `static Joystick nonOwning(SDL_Joystick *stick)`. -/
def Joystick.nonOwning (stick : Handle) : Joystick :=
  { m_joystick := stick, m_owner := false }

/-- Embeds `Joystick &operator =(Joystick &&other)`. -/
def Joystick.moveAssign (self other : Joystick) : MoveResult Joystick :=
  if self.m_joystick ≠ other.m_joystick then
    { self := { m_joystick := other.m_joystick, m_owner := other.m_owner }
      other := { m_joystick := nullptr, m_owner := false }
      calls := [] }
  else
    { self := self, other := other, calls := [] }

/-- Embeds `Joystick(Joystick &&other)`: the new object starts from the default member
initializers `m_joystick = nullptr`, `m_owner = true`. -/
def Joystick.moveCtor (other : Joystick) : MoveResult Joystick :=
  Joystick.moveAssign { m_joystick := nullptr, m_owner := true } other

/-- Embeds `~Joystick()`. -/
def Joystick.destructor (self : Joystick) : List NativeCall :=
  if self.m_owner && self.m_joystick != nullptr then
    [NativeCall.SDL_JoystickClose self.m_joystick]
  else []

/-! ## GameController.hpp -/

/-- Embeds `class GameController`: the data members `m_controller` and `m_owned`. -/
structure GameController where
  m_controller : Handle
  m_owned : Bool
  deriving DecidableEq, Repr

/-- Embeds `GameController() = default`. -/
def GameController.default : GameController := { m_controller := nullptr, m_owned := true }

/-- Embeds `GameController(int joystickIndex)`; `SDL_GameControllerOpen` is the native
factory. -/
def GameController.ctor (SDL_GameControllerOpen : Int → Handle) (joystickIndex : Int)
    (sdlError : String) : Except Exception GameController :=
  if SDL_GameControllerOpen joystickIndex = nullptr then
    Except.error (Exception.ctor "SDL_GameControllerOpen" sdlError)
  else
    Except.ok { m_controller := SDL_GameControllerOpen joystickIndex, m_owned := true }

/-- Embeds `GameController(SDL_GameController *controller)`. -/
def GameController.ctorFromPointer (controller : Handle) : GameController :=
  { m_controller := controller, m_owned := true }

/-- Embeds `static GameController nonOwning(SDL_GameController* controller)`. -/
def GameController.nonOwning (controller : Handle) : GameController :=
  { m_controller := controller, m_owned := false }

/-- Embeds `GameController &operator=(GameController &&other)`. -/
def GameController.moveAssign (self other : GameController) : MoveResult GameController :=
  if self.m_controller ≠ other.m_controller then
    { self := { m_controller := other.m_controller, m_owned := other.m_owned }
      other := { m_controller := nullptr, m_owned := false }
      calls := [] }
  else
    { self := self, other := other, calls := [] }

/-- Embeds `GameController(GameController &&other)`: the new object starts from the
default member initializers `m_controller = nullptr`, `m_owned = true`. -/
def GameController.moveCtor (other : GameController) : MoveResult GameController :=
  GameController.moveAssign { m_controller := nullptr, m_owned := true } other

/-- Embeds `~GameController()`. -/
def GameController.destructor (self : GameController) : List NativeCall :=
  if self.m_owned && self.m_controller != nullptr then
    [NativeCall.SDL_GameControllerClose self.m_controller]
  else []

/-! ## Programs over the wrappers of one class

The lifetime claims speak of several wrapper objects of one class and of the
statements a program runs on them. `WrapperClass` collects the members of one
class; a `World` holds the objects a program has created (a destroyed object is
`none`) and the native calls made so far. -/

/-- The members of one wrapper class that take part in its lifetime. -/
structure WrapperClass (W : Type) where
  /-- The state given by the default member initializers, from which a move
  constructor starts. -/
  fresh : W
  /-- The move-assignment operator. -/
  moveAssign : W → W → MoveResult W
  /-- The destructor. -/
  destructor : W → List NativeCall
  /-- The handle held. -/
  handle : W → Handle
  /-- The ownership flag, `true` for a class that has none. -/
  owner : W → Bool
  /-- The native teardown call matching the class. -/
  release : Handle → NativeCall

/-- The members of `Surface`. -/
def Surface.wrapper : WrapperClass Surface where
  fresh := { m_surface := nullptr }
  moveAssign := Surface.moveAssign
  destructor := Surface.destructor
  handle := Surface.m_surface
  owner := fun _ => true
  release := NativeCall.SDL_FreeSurface

/-- The members of `Texture`. -/
def Texture.wrapper : WrapperClass Texture where
  fresh := { m_texture := nullptr }
  moveAssign := Texture.moveAssign
  destructor := Texture.destructor
  handle := Texture.m_texture
  owner := fun _ => true
  release := NativeCall.SDL_DestroyTexture

/-- The members of `Renderer`. -/
def Renderer.wrapper : WrapperClass Renderer where
  fresh := { m_renderer := nullptr }
  moveAssign := Renderer.moveAssign
  destructor := Renderer.destructor
  handle := Renderer.m_renderer
  owner := fun _ => true
  release := NativeCall.SDL_DestroyRenderer

/-- The members of `Window`. -/
def Window.wrapper : WrapperClass Window where
  fresh := { m_window := nullptr }
  moveAssign := Window.moveAssign
  destructor := Window.destructor
  handle := Window.m_window
  owner := fun _ => true
  release := NativeCall.SDL_DestroyWindow

/-- The members of `SharedObject`. -/
def SharedObject.wrapper : WrapperClass SharedObject where
  fresh := { m_handle := nullptr }
  moveAssign := SharedObject.moveAssign
  destructor := SharedObject.destructor
  handle := SharedObject.m_handle
  owner := fun _ => true
  release := NativeCall.SDL_UnloadObject

/-- The members of `Cursor`. -/
def Cursor.wrapper : WrapperClass Cursor where
  fresh := { m_cursor := nullptr }
  moveAssign := Cursor.moveAssign
  destructor := Cursor.destructor
  handle := Cursor.m_cursor
  owner := fun _ => true
  release := NativeCall.SDL_FreeCursor

/-- The members of `Haptic`. -/
def Haptic.wrapper : WrapperClass Haptic where
  fresh := { m_haptic := nullptr, myEffects := [] }
  moveAssign := Haptic.moveAssign
  destructor := Haptic.destructor
  handle := Haptic.m_haptic
  owner := fun _ => true
  release := NativeCall.SDL_HapticClose

/-- The members of `Joystick`. -/
def Joystick.wrapper : WrapperClass Joystick where
  fresh := { m_joystick := nullptr, m_owner := true }
  moveAssign := Joystick.moveAssign
  destructor := Joystick.destructor
  handle := Joystick.m_joystick
  owner := Joystick.m_owner
  release := NativeCall.SDL_JoystickClose

/-- The members of `GameController`. -/
def GameController.wrapper : WrapperClass GameController where
  fresh := { m_controller := nullptr, m_owned := true }
  moveAssign := GameController.moveAssign
  destructor := GameController.destructor
  handle := GameController.m_controller
  owner := GameController.m_owned
  release := NativeCall.SDL_GameControllerClose

/-- The objects of a program, by position (`none` once destroyed), and the
native calls made so far, oldest first. -/
structure World (W : Type) where
  objects : List (Option W)
  trace : List NativeCall
  deriving DecidableEq, Repr

/-- A statement of a program: `objects[dst] = std::move(objects[src])`, the
declaration of a new object move-constructed from `objects[src]`, or the end of
the lifetime of `objects[i]`. -/
inductive Statement where
  | moveAssign (dst src : Nat)
  | moveCtor (src : Nat)
  | destroy (i : Nat)
  deriving DecidableEq, Repr

/-- The world in which the given objects have just been created. -/
def World.start {W : Type} (ws : List W) : World W :=
  { objects := ws.map some, trace := [] }

/-- Runs one statement. A statement that names an object that does not exist or
is already destroyed is not a program and leaves the world as it is. -/
def World.exec {W : Type} (C : WrapperClass W) (w : World W) : Statement → World W
  | Statement.moveAssign dst src =>
    match w.objects[dst]?, w.objects[src]? with
    | some (some a), some (some b) =>
      { objects := (w.objects.set dst (some (C.moveAssign a b).self)).set src
          (some (C.moveAssign a b).other)
        trace := w.trace ++ (C.moveAssign a b).calls }
    | _, _ => w
  | Statement.moveCtor src =>
    match w.objects[src]? with
    | some (some b) =>
      { objects := w.objects.set src (some (C.moveAssign C.fresh b).other) ++
          [some (C.moveAssign C.fresh b).self]
        trace := w.trace ++ (C.moveAssign C.fresh b).calls }
    | _ => w
  | Statement.destroy i =>
    match w.objects[i]? with
    | some (some a) =>
      { objects := w.objects.set i none, trace := w.trace ++ C.destructor a }
    | _ => w

/-- Runs the statements in order. -/
def World.run {W : Type} (C : WrapperClass W) (w : World W) (prog : List Statement) :
    World W :=
  prog.foldl (World.exec C) w

/-- Ends the lifetime of every object that is still alive. -/
def World.destroyAll {W : Type} (C : WrapperClass W) (w : World W) : World W :=
  World.run C w ((List.range w.objects.length).map Statement.destroy)

/-- Whether a live object owns the handle `h`: it holds `h` and its ownership
flag is set. -/
def WrapperClass.owns {W : Type} (C : WrapperClass W) (h : Handle) : Option W → Bool
  | some x => C.owner x && C.handle x == h
  | none => false

/-- The number of live objects that own `h`. -/
def World.ownerCount {W : Type} (C : WrapperClass W) (w : World W) (h : Handle) : Nat :=
  w.objects.countP (C.owns h)

/-- Every non-null handle is owned by at most one live object. -/
def World.SingleOwner {W : Type} (C : WrapperClass W) (w : World W) : Prop :=
  ∀ h, h ≠ nullptr → w.ownerCount C h ≤ 1

/-- The number of times the teardown function of the class was called on `h`. -/
def World.releaseCount {W : Type} (C : WrapperClass W) (w : World W) (h : Handle) : Nat :=
  w.trace.count (C.release h)

/-- The program `prog` run on freshly created objects `ws`, followed by the end
of the lifetime of every object still alive. -/
def World.lifetime {W : Type} (C : WrapperClass W) (ws : List W) (prog : List Statement) :
    World W :=
  World.destroyAll C (World.run C (World.start ws) prog)

/-- What a move-assignment does to the handles and flags: the new-object state
holds the null handle; between objects of equal handles nothing happens;
otherwise the destination takes the handle and flag of the source and the source
is left with the null handle. -/
def WrapperClass.Transfers {W : Type} (C : WrapperClass W) : Prop :=
  C.handle C.fresh = nullptr
  ∧ (∀ a b, C.handle a = C.handle b →
      C.moveAssign a b = { self := a, other := b, calls := [] })
  ∧ (∀ a b, C.handle a ≠ C.handle b →
      C.handle (C.moveAssign a b).self = C.handle b
      ∧ C.owner (C.moveAssign a b).self = C.owner b
      ∧ C.handle (C.moveAssign a b).other = nullptr)

/-- The class has no ownership flag, its move-assignment between objects of
different handles calls the teardown function once on the handle it overwrites
when that handle is not null, and its destructor calls the teardown function
once on the handle held when that handle is not null. -/
def WrapperClass.ReleasesOverwritten {W : Type} (C : WrapperClass W) : Prop :=
  (∀ a, C.owner a = true)
  ∧ (∀ a b h, h ≠ nullptr → C.handle a ≠ C.handle b →
      (C.moveAssign a b).calls.count (C.release h) = if C.handle a = h then 1 else 0)
  ∧ (∀ a h, h ≠ nullptr →
      (C.destructor a).count (C.release h) = if C.handle a = h then 1 else 0)

/-! ## Haptic.hpp: handles of installed effects, and programs over one registry -/

/-- Embeds `InstalledEffect &operator=(InstalledEffect &&other)`; it makes no
native call. -/
def InstalledEffect.moveAssign (self other : InstalledEffect) : MoveResult InstalledEffect :=
  if self.m_index ≠ other.m_index then
    { self := { m_index := other.m_index, m_owner := other.m_owner }
      other := { m_index := InstalledEffect.invalidIndex, m_owner := none }
      calls := [] }
  else
    { self := self, other := other, calls := [] }

/-- Embeds `InstalledEffect(InstalledEffect &&other)`: the new object starts from
the default member initializers `m_index = invalidIndex`, `m_owner = nullptr`. -/
def InstalledEffect.moveCtor (other : InstalledEffect) : MoveResult InstalledEffect :=
  InstalledEffect.moveAssign InstalledEffect.default other

/-- An operation of a program on the registry of one `Haptic` object:
`newEffect(e)`, with what the native library answers to this call (the
capabilities of the device and the identifier of the new effect), or
`removeEffect(id)`. -/
inductive RegistryOp where
  | newEffect (capabilities : Nat) (rawId : EffectId) (e : Effect)
  | removeEffect (id : EffectId)
  deriving DecidableEq, Repr

/-- The state of the `Haptic` object at address `thisPtr` after one operation; a
`newEffect` that throws leaves the object as it was. -/
def Haptic.applyOp (thisPtr : Nat) (sdlError : String) (self : Haptic) : RegistryOp → Haptic
  | RegistryOp.newEffect capabilities rawId e =>
    match self.newEffect thisPtr (fun _ => capabilities) (fun _ _ => rawId) sdlError e with
    | Except.ok (_, after) => after
    | Except.error _ => self
  | RegistryOp.removeEffect id => self.removeEffect id

/-- The state of the `Haptic` object after the operations, in order. -/
def Haptic.applyOps (thisPtr : Nat) (sdlError : String) (self : Haptic)
    (ops : List RegistryOp) : Haptic :=
  ops.foldl (Haptic.applyOp thisPtr sdlError) self


/-! ## Machine integers -/

/-- The value of a C `int` (32 bits, two's complement) that an arithmetic result
`z` wraps to; it is `z` itself when `z` is representable. -/
def wrapInt32 (z : Int) : Int :=
  (z + 2147483648) % 4294967296 - 2147483648

/-! ## Vec2.hpp, for `Vec2i = Vec2<int, SDL_Point>` -/

/-- Embeds `Vec2i`: the members `x` and `y` of the base `SDL_Point`. -/
structure Vec2i where
  x : Int
  y : Int
  deriving DecidableEq, Repr

/-- Embeds `T sqLength() const`. -/
def Vec2i.sqLength (self : Vec2i) : Int :=
  wrapInt32 (wrapInt32 (self.x * self.x) + wrapInt32 (self.y * self.y))

/-- Embeds `T length() const`: `std::sqrt` of the squared length, converted to
`int`, that is the square root rounded toward zero. For a negative argument
`std::sqrt` yields a NaN, whose conversion to `int` is undefined: `none`. -/
def Vec2i.length (self : Vec2i) : Option Int :=
  if self.sqLength < 0 then none else some (Int.ofNat (Nat.sqrt self.sqLength.toNat))

/-- Embeds `bool null() const`. -/
def Vec2i.null (self : Vec2i) : Bool :=
  self.x == 0 || self.y == 0

/-- Embeds `Vec2 &operator /=(T v)`: the division of `int` rounds toward zero, and
a division by zero is undefined: `none`. -/
def Vec2i.divAssign (self : Vec2i) (v : Int) : Option Vec2i :=
  if v = 0 then none else some { x := self.x.tdiv v, y := self.y.tdiv v }

/-- Embeds `void normalize()`: the new value of the vector, `none` when the
behaviour is undefined. -/
def Vec2i.normalize (self : Vec2i) : Option Vec2i :=
  if self.null then some self
  else
    match self.length with
    | none => none
    | some l => self.divAssign l

/-- Embeds `Vec2 normalized() const`. -/
def Vec2i.normalized (self : Vec2i) : Option Vec2i :=
  Vec2i.normalize { x := self.x, y := self.y }

/-! ## Rect.hpp -/

/-- Embeds `class Rect : public SDL_Rect`: the members `x`, `y`, `w`, `h`. -/
structure Rect where
  x : Int
  y : Int
  w : Int
  h : Int
  deriving DecidableEq, Repr

/-- Embeds `constexpr Rect()`. -/
def Rect.default : Rect := { x := 0, y := 0, w := 0, h := 0 }

/-- Embeds `constexpr int x1() const`. -/
def Rect.x1 (self : Rect) : Int := self.x

/-- Embeds `constexpr int x2() const`. -/
def Rect.x2 (self : Rect) : Int := wrapInt32 (self.x + self.w)

/-- Embeds `constexpr int y1() const`. -/
def Rect.y1 (self : Rect) : Int := self.y

/-- Embeds `constexpr int y2() const`. -/
def Rect.y2 (self : Rect) : Int := wrapInt32 (self.y + self.h)

/-- Embeds `bool intersects(const Rect &r) const`. -/
def Rect.intersects (self r : Rect) : Bool :=
  decide (self.x1 < r.x2) && decide (self.x2 > r.x1) && decide (self.y1 < r.y2)
    && decide (self.y2 > r.y1)

/-- Modelled from the spec: the native routine `SDL_RectEmpty` of the SDL2
library, which is not among the sources: a rectangle is empty when its width or
its height is `<= 0`. -/
def SDL_RectEmpty (r : Rect) : Bool :=
  decide (r.w ≤ 0) || decide (r.h ≤ 0)

/-- Modelled from the spec: the native routine `SDL_IntersectRect` of the SDL2
library, which is not among the sources. It reports no intersection, setting the
size of `result` to zero, when `A` or `B` is empty; otherwise it stores in
`result` the overlap of the extents of `A` and `B` on each axis and reports an
intersection exactly when `result` is not empty. Returns the report and the new
content of `result`. -/
def SDL_IntersectRect (A B : Rect) (result : Rect) : Bool × Rect :=
  if SDL_RectEmpty A || SDL_RectEmpty B then
    (false, { result with w := 0, h := 0 })
  else
    let xmin := if B.x > A.x then B.x else A.x
    let xmax := if wrapInt32 (B.x + B.w) < wrapInt32 (A.x + A.w)
      then wrapInt32 (B.x + B.w) else wrapInt32 (A.x + A.w)
    let ymin := if B.y > A.y then B.y else A.y
    let ymax := if wrapInt32 (B.y + B.h) < wrapInt32 (A.y + A.h)
      then wrapInt32 (B.y + B.h) else wrapInt32 (A.y + A.h)
    let filled : Rect :=
      { x := xmin, y := ymin, w := wrapInt32 (xmax - xmin), h := wrapInt32 (ymax - ymin) }
    (!SDL_RectEmpty filled, filled)

/-- Embeds `bool empty() const`. -/
def Rect.empty (self : Rect) : Bool := SDL_RectEmpty self

/-- Embeds `Rect inter(const Rect &r) const`. -/
def Rect.inter (self r : Rect) : Rect :=
  (SDL_IntersectRect self r Rect.default).2

/-- The coordinates and the size of the rectangle are at most `2^29` in absolute
value, so that no sum or difference formed from two such rectangles overflows. -/
def Rect.Small (r : Rect) : Prop :=
  (-536870912 ≤ r.x ∧ r.x ≤ 536870912) ∧ (-536870912 ≤ r.y ∧ r.y ≤ 536870912)
    ∧ (-536870912 ≤ r.w ∧ r.w ≤ 536870912) ∧ (-536870912 ≤ r.h ∧ r.h ≤ 536870912)


/-! ## Exception.hpp: the native error slot -/

/-- Modelled from the spec: `Error::get()` of Error.hpp, which is not among the
sources: the native diagnostic string, read from the single process-global
error slot; `slot` is the content of that slot. -/
def Error.get (slot : String) : String := slot

/-- Modelled from the spec: `Error::clear()` of Error.hpp, which is not among the
sources: clears the process-global error slot; returns the content of the slot
afterwards. -/
def Error.clear (_slot : String) : String := ""

/-- Embeds `Exception::Exception(std::string &&function)` together with its
effect on the native error slot: the body reads the slot with `Error::get()` to
build `m_what`, then runs `Error::clear()`. Returns the object and the slot
afterwards. -/
def Exception.construct (function : String) (slot : String) : Exception × String :=
  (Exception.ctor function (Error.get slot), Error.clear slot)

/-- Embeds `const char *what() const noexcept`. -/
def Exception.what (self : Exception) : String := self.m_what

/-! ## Pixels.hpp, Render.hpp, Surface.hpp, Texture.hpp: operations that throw -/

/-- Embeds `class Color : public SDL_Color`: the members `r`, `g`, `b`, `a`. -/
structure Color where
  r : Nat
  g : Nat
  b : Nat
  a : Nat
  deriving DecidableEq, Repr

/-- Embeds `constexpr Color()`. -/
def Color.default : Color := { r := 0, g := 0, b := 0, a := 255 }

/-- Embeds `void Renderer::setIntScale(bool intscale) const`;
`SDL_RenderSetIntegerScale` is the native call. -/
def Renderer.setIntScale (self : Renderer) (SDL_RenderSetIntegerScale : Handle → Bool → Int)
    (intscale : Bool) (sdlError : String) : Except Exception Unit :=
  if SDL_RenderSetIntegerScale self.m_renderer intscale ≠ 0 then
    Except.error (Exception.ctor "SDL_RenderSetIntegerScale" sdlError)
  else Except.ok ()

/-- Embeds `void Renderer::setBlendMode(SDL_BlendMode mode) const`;
`SDL_SetRenderDrawBlendMode` is the native call. -/
def Renderer.setBlendMode (self : Renderer) (SDL_SetRenderDrawBlendMode : Handle → Nat → Int)
    (mode : Nat) (sdlError : String) : Except Exception Unit :=
  if SDL_SetRenderDrawBlendMode self.m_renderer mode ≠ 0 then
    Except.error (Exception.ctor "SDL_RenderSetIntegerScale" sdlError)
  else Except.ok ()

/-- Embeds `void Renderer::drawRects(const std::vector<Rect> &rects) const`;
`SDL_RenderDrawRects` is the native call. -/
def Renderer.drawRects (self : Renderer) (SDL_RenderDrawRects : Handle → List Rect → Int)
    (rects : List Rect) (sdlError : String) : Except Exception Unit :=
  if SDL_RenderDrawRects self.m_renderer rects ≠ 0 then
    Except.error (Exception.ctor "SDL_RenderDrawRects" sdlError)
  else Except.ok ()

/-- Embeds `void Renderer::fillRects(const std::vector<Rect> &rects) const`;
`SDL_RenderFillRects` is the native call. -/
def Renderer.fillRects (self : Renderer) (SDL_RenderFillRects : Handle → List Rect → Int)
    (rects : List Rect) (sdlError : String) : Except Exception Unit :=
  if SDL_RenderFillRects self.m_renderer rects ≠ 0 then
    Except.error (Exception.ctor "SDL_RenderDrawRects" sdlError)
  else Except.ok ()

/-- Embeds `void Surface::setColorMod(Uint8 r, Uint8 g, Uint8 b) const`;
`SDL_SetSurfaceColorMod` is the native call. -/
def Surface.setColorMod (self : Surface) (SDL_SetSurfaceColorMod : Handle → Nat → Nat → Nat → Int)
    (r g b : Nat) (sdlError : String) : Except Exception Unit :=
  if SDL_SetSurfaceColorMod self.m_surface r g b ≠ 0 then
    Except.error (Exception.ctor "SDL_SetSurfaceColorMod" sdlError)
  else Except.ok ()

/-- Embeds `Color Surface::colorMod() const`; `SDL_GetSurfaceColorMod` is the
native call, which returns its status and the three components it stores. -/
def Surface.colorMod (self : Surface) (SDL_GetSurfaceColorMod : Handle → Int × Nat × Nat × Nat)
    (sdlError : String) : Except Exception Color :=
  if (SDL_GetSurfaceColorMod self.m_surface).1 ≠ 0 then
    Except.error (Exception.ctor "SDL_SetSurfaceColorMod" sdlError)
  else
    Except.ok { Color.default with
      r := (SDL_GetSurfaceColorMod self.m_surface).2.1
      g := (SDL_GetSurfaceColorMod self.m_surface).2.2.1
      b := (SDL_GetSurfaceColorMod self.m_surface).2.2.2 }

/-- Embeds `void Texture::setColorMod(Uint8 r, Uint8 g, Uint8 b) const`;
`SDL_SetTextureColorMod` is the native call. -/
def Texture.setColorMod (self : Texture) (SDL_SetTextureColorMod : Handle → Nat → Nat → Nat → Int)
    (r g b : Nat) (sdlError : String) : Except Exception Unit :=
  if SDL_SetTextureColorMod self.m_texture r g b ≠ 0 then
    Except.error (Exception.ctor "SDL_SetTextureColorMod" sdlError)
  else Except.ok ()

/-- Embeds `Color Texture::colorMod() const`; `SDL_GetTextureColorMod` is the
native call, which returns its status and the three components it stores. -/
def Texture.colorMod (self : Texture) (SDL_GetTextureColorMod : Handle → Int × Nat × Nat × Nat)
    (sdlError : String) : Except Exception Color :=
  if (SDL_GetTextureColorMod self.m_texture).1 ≠ 0 then
    Except.error (Exception.ctor "SDL_SetTextureColorMod" sdlError)
  else
    Except.ok { Color.default with
      r := (SDL_GetTextureColorMod self.m_texture).2.1
      g := (SDL_GetTextureColorMod self.m_texture).2.2.1
      b := (SDL_GetTextureColorMod self.m_texture).2.2.2 }

/-! ## Events.hpp -/

/-- The native `SDL_Event`: the leading `type` field (`Uint32`) and the bytes that
follow it. -/
structure SDL_Event where
  type : Nat
  payload : List Nat
  deriving DecidableEq, Repr

/-- Embeds `union Event`, which has the layout of `SDL_Event`: the leading `type`
field and the bytes that follow it. -/
structure Event where
  type : Nat
  payload : List Nat
  deriving DecidableEq, Repr

/-- Embeds `static Event &from(SDL_Event *e)`: the same bytes, seen as an
`Event`. -/
def Event.from (e : SDL_Event) : Event := { type := e.type, payload := e.payload }

/-- Embeds `SDL_Event *ptr()`: the same bytes, seen as an `SDL_Event`. -/
def Event.ptr (self : Event) : SDL_Event := { type := self.type, payload := self.payload }

/-- Embeds `void wait(int timeout)`; `SDL_WaitEventTimeout` is the native call,
which receives the bytes of the event and the bound and returns its status and
the bytes of the event afterwards. Returns the outcome and the event as the
native call left it. -/
def Event.wait (self : Event) (SDL_WaitEventTimeout : SDL_Event → Int → Int × SDL_Event)
    (timeout : Int) (sdlError : String) : Except Exception Unit × Event :=
  (if (SDL_WaitEventTimeout self.ptr timeout).1 = 0 then
      Except.error (Exception.ctor "SDL_WaitEventTimeout" sdlError)
    else Except.ok (),
   Event.from (SDL_WaitEventTimeout self.ptr timeout).2)

/-- Embeds `struct Event::EventFilter`: the data members `m_filter` (`none` for
`nullptr`), `m_userdata` and `m_isWatcher`. -/
structure EventFilter where
  m_filter : Option (Nat → Event → Bool)
  m_userdata : Nat
  m_isWatcher : Bool

/-- The native calls by which an `EventFilter` registers or removes a callback;
`callback` is true for `&callFilter` and false for `nullptr`, `userdata` is the
data pointer handed to the library. -/
inductive EventNativeCall where
  | SDL_FilterEvents (callback : Bool) (userdata : Nat)
  | SDL_SetEventFilter (callback : Bool) (userdata : Nat)
  | SDL_AddEventWatch (callback : Bool) (userdata : Nat)
  | SDL_DelEventWatch (callback : Bool) (userdata : Nat)
  deriving DecidableEq, Repr

/-- The data pointer handed to the library by a registration; the library passes
it back as the first argument of the callback. -/
def EventNativeCall.userdata : EventNativeCall → Nat
  | EventNativeCall.SDL_FilterEvents _ userdata => userdata
  | EventNativeCall.SDL_SetEventFilter _ userdata => userdata
  | EventNativeCall.SDL_AddEventWatch _ userdata => userdata
  | EventNativeCall.SDL_DelEventWatch _ userdata => userdata

/-- Embeds `static int callFilter(void *data, SDL_Event *event)`. `objectAt` tells
which `EventFilter` object lives at an address; when none lives at `data`, or
when `m_filter` is null, the call is undefined: `none`. -/
def EventFilter.callFilter (objectAt : Nat → Option EventFilter) (data : Nat)
    (event : SDL_Event) : Option Int :=
  match objectAt data with
  | none => none
  | some filter =>
    match filter.m_filter with
    | none => none
    | some f => some (if f filter.m_userdata (Event.from event) then 1 else 0)

/-- Embeds `void filterQueue()`; `thisPtr` is the address of the object. -/
def EventFilter.filterQueue (_self : EventFilter) (thisPtr : Nat) : EventNativeCall :=
  EventNativeCall.SDL_FilterEvents true thisPtr

/-- Embeds `void set()`; `thisPtr` is the address of the object. -/
def EventFilter.set (self : EventFilter) (_thisPtr : Nat) : EventNativeCall :=
  EventNativeCall.SDL_SetEventFilter true self.m_userdata

/-- Embeds `void addWatcher()`; `thisPtr` is the address of the object. Returns
the native call and the new state of the object. -/
def EventFilter.addWatcher (self : EventFilter) (thisPtr : Nat) :
    EventNativeCall × EventFilter :=
  (EventNativeCall.SDL_AddEventWatch true thisPtr, { self with m_isWatcher := true })


/-! ## Vec2.hpp and Rect.hpp: clamping and containment -/

/-- Embeds `void clamp(const SDL_Rect &box)`, for `Vec2i`: the new value of the
vector. -/
def Vec2i.clamp (self : Vec2i) (box : Rect) : Vec2i :=
  { x := min (max self.x box.x) (wrapInt32 (box.x + box.w))
    y := min (max self.y box.y) (wrapInt32 (box.y + box.h)) }

/-- Embeds `Vec2 clamped(const SDL_Rect &box) const`, for `Vec2i`. -/
def Vec2i.clamped (self : Vec2i) (box : Rect) : Vec2i :=
  Vec2i.clamp { x := self.x, y := self.y } box

/-- Embeds `bool contains(int px, int py) const`. -/
def Rect.contains (self : Rect) (px py : Int) : Bool :=
  decide (px ≥ self.x1) && decide (px < self.x2) && decide (py ≥ self.y1)
    && decide (py < self.y2)

/-- Embeds `bool contains(const Vec2i &point) const`. -/
def Rect.containsPoint (self : Rect) (point : Vec2i) : Bool :=
  self.contains point.x point.y

/-- The sums `x + w` and `y + h` of the rectangle are representable in `int`. -/
def Rect.NoOverflow (r : Rect) : Prop :=
  (-2147483648 ≤ r.x + r.w ∧ r.x + r.w < 2147483648)
    ∧ (-2147483648 ≤ r.y + r.h ∧ r.y + r.h < 2147483648)


/-! ## Video.hpp: the input grab of a window -/

/-- The native call `SDL_SetWindowGrab(window, grabbed)`. -/
inductive WindowCall where
  | SDL_SetWindowGrab (window : Handle) (grabbed : Bool)
  deriving DecidableEq, Repr

/-- Modelled from the spec: the input-grab state that the native library keeps
for each window, after a native call: `SDL_SetWindowGrab(window, grabbed)` sets
the state of that window to `grabbed` and leaves the other windows alone. -/
def WindowCall.apply (grab : Handle → Bool) : WindowCall → Handle → Bool
  | WindowCall.SDL_SetWindowGrab window grabbed => fun h => if h = window then grabbed else grab h

/-- Embeds `void grab()`: the native call made. -/
def Window.grab (self : Window) : WindowCall :=
  WindowCall.SDL_SetWindowGrab self.m_window true

/-- Embeds `void release()`: the native call made. -/
def Window.release (self : Window) : WindowCall :=
  WindowCall.SDL_SetWindowGrab self.m_window true

/-- Embeds `bool grabbed() const`; `grab` is the state kept by the native library,
which `SDL_GetWindowGrab` reads. -/
def Window.grabbed (self : Window) (grab : Handle → Bool) : Bool :=
  grab self.m_window

/-! ## Events.hpp: removing the event filter -/

/-- Embeds `static void unset()`: the native call made. -/
def EventFilter.unset : EventNativeCall :=
  EventNativeCall.SDL_FilterEvents false nullptr

/-- Modelled from the spec: the installed-filter slot of the native library (the
data pointer of the installed filter, `none` when no filter is installed) after a
native call. Only `SDL_SetEventFilter` writes the slot: it installs the callback
it is given, or empties the slot when given `nullptr`; `SDL_FilterEvents` runs a
callback over the queue once and the watcher calls manage the list of watchers,
none of them touching the slot. -/
def EventNativeCall.installedAfter (slot : Option Nat) : EventNativeCall → Option Nat
  | EventNativeCall.SDL_SetEventFilter callback userdata =>
    if callback then some userdata else none
  | EventNativeCall.SDL_FilterEvents _ _ => slot
  | EventNativeCall.SDL_AddEventWatch _ _ => slot
  | EventNativeCall.SDL_DelEventWatch _ _ => slot

/-! ## Surface.hpp: creating constructors -/

/-- The native calls that create a surface, with their arguments. -/
inductive SurfaceCreateCall where
  | SDL_CreateRGBSurfaceWithFormat (flags : Nat) (w h depth : Int) (format : Nat)
  | SDL_CreateRGBSurfaceWithFormatFrom (pixels : Handle) (w h depth pitch : Int) (format : Nat)
  deriving DecidableEq, Repr

/-- Embeds `Surface(int w, int h, int depth, Uint32 format)`; `native` gives the
handle a creation call returns. Returns the native call made and the outcome. -/
def Surface.ctorSize (native : SurfaceCreateCall → Handle) (w h depth : Int) (format : Nat)
    (sdlError : String) : SurfaceCreateCall × Except Exception Surface :=
  (SurfaceCreateCall.SDL_CreateRGBSurfaceWithFormat 0 w h depth format,
   if native (SurfaceCreateCall.SDL_CreateRGBSurfaceWithFormat 0 w h depth format) = nullptr then
     Except.error (Exception.ctor "SDL_CreateRGBSurfaceWithFormat" sdlError)
   else
     Except.ok
       { m_surface := native (SurfaceCreateCall.SDL_CreateRGBSurfaceWithFormat 0 w h depth format) })

/-- Embeds `Surface(void *pixels, int w, int h, int depth, Uint32 format)`; the
pitch handed to the native call is `depth / 8 * w`. -/
def Surface.ctorPixels (native : SurfaceCreateCall → Handle) (pixels : Handle)
    (w h depth : Int) (format : Nat) (sdlError : String) :
    SurfaceCreateCall × Except Exception Surface :=
  (SurfaceCreateCall.SDL_CreateRGBSurfaceWithFormatFrom pixels w h depth
      (wrapInt32 (depth.tdiv 8 * w)) format,
   if native (SurfaceCreateCall.SDL_CreateRGBSurfaceWithFormatFrom pixels w h depth
       (wrapInt32 (depth.tdiv 8 * w)) format) = nullptr then
     Except.error (Exception.ctor "SDL_CreateRGBSurfaceWithFormatFrom" sdlError)
   else
     Except.ok
       { m_surface := native (SurfaceCreateCall.SDL_CreateRGBSurfaceWithFormatFrom pixels w h
           depth (wrapInt32 (depth.tdiv 8 * w)) format) })

/-- Embeds `Surface(const Vec2i &size, int depth, Uint32 format)`, which delegates
to `Surface(0, size.x, size.y, depth, format)`. No constructor of `Surface` takes
`(int, int, int, int, Uint32)`; the only constructor with five parameters is
`Surface(void *pixels, int w, int h, int depth, Uint32 format)`, and the literal
`0` is a null pointer constant, so the delegation runs that constructor with
`pixels = nullptr`. -/
def Surface.ctorVec (native : SurfaceCreateCall → Handle) (size : Vec2i) (depth : Int)
    (format : Nat) (sdlError : String) : SurfaceCreateCall × Except Exception Surface :=
  Surface.ctorPixels native nullptr size.x size.y depth format sdlError

/-! ## Texture.hpp: locking -/

/-- The native calls of `Texture::Lock`, with the status `SDL_LockTexture`
returned. -/
inductive TextureCall where
  | SDL_LockTexture (texture : Handle) (status : Int)
  | SDL_QueryTexture (texture : Handle)
  | SDL_AllocFormat (format : Nat)
  | SDL_UnlockTexture (texture : Handle)
  | SDL_FreeFormat (format : Handle)
  deriving DecidableEq, Repr

/-- Embeds `class Texture::Lock`: the data members. -/
structure Texture.Lock where
  m_texture : Handle
  m_pixels : Handle
  m_pitch : Int
  m_size : Vec2i
  m_format : Handle
  deriving DecidableEq, Repr

/-- Embeds `Lock(SDL_Texture *texture, const SDL_Rect *rect)`. `SDL_LockTexture`
returns its status and the pixels and pitch it stores, `SDL_QueryTexture` the
format, width and height it stores, `SDL_AllocFormat` the format it allocates.
Returns the native calls made, in order, and the outcome. -/
def Texture.Lock.ctor (texture : Handle) (rect : Option Rect)
    (SDL_LockTexture : Handle → Option Rect → Int × Handle × Int)
    (SDL_QueryTexture : Handle → Nat × Int × Int) (SDL_AllocFormat : Nat → Handle)
    (sdlError : String) : List TextureCall × Except Exception Texture.Lock :=
  if (SDL_LockTexture texture rect).1 ≠ 0 then
    ([TextureCall.SDL_LockTexture texture (SDL_LockTexture texture rect).1],
     Except.error (Exception.ctor "SDL_LockTexture" sdlError))
  else if SDL_AllocFormat (SDL_QueryTexture texture).1 = nullptr then
    ([TextureCall.SDL_LockTexture texture (SDL_LockTexture texture rect).1,
      TextureCall.SDL_QueryTexture texture,
      TextureCall.SDL_AllocFormat (SDL_QueryTexture texture).1],
     Except.error (Exception.ctor "SDL_AllocFormat" sdlError))
  else
    ([TextureCall.SDL_LockTexture texture (SDL_LockTexture texture rect).1,
      TextureCall.SDL_QueryTexture texture,
      TextureCall.SDL_AllocFormat (SDL_QueryTexture texture).1],
     Except.ok
       { m_texture := texture
         m_pixels := (SDL_LockTexture texture rect).2.1
         m_pitch := (SDL_LockTexture texture rect).2.2
         m_size := { x := (SDL_QueryTexture texture).2.1, y := (SDL_QueryTexture texture).2.2 }
         m_format := SDL_AllocFormat (SDL_QueryTexture texture).1 })

/-- Embeds `~Lock()`. -/
def Texture.Lock.destructor (self : Texture.Lock) : List TextureCall :=
  [TextureCall.SDL_UnlockTexture self.m_texture, TextureCall.SDL_FreeFormat self.m_format]

/-- Embeds `Lock lock()`. -/
def Texture.lock (self : Texture)
    (SDL_LockTexture : Handle → Option Rect → Int × Handle × Int)
    (SDL_QueryTexture : Handle → Nat × Int × Int) (SDL_AllocFormat : Nat → Handle)
    (sdlError : String) : List TextureCall × Except Exception Texture.Lock :=
  Texture.Lock.ctor self.m_texture none SDL_LockTexture SDL_QueryTexture SDL_AllocFormat
    sdlError

/-- The number of native locks left held on `texture` by the calls: the
successful `SDL_LockTexture` calls that no `SDL_UnlockTexture` has matched. -/
def TextureCall.heldLocks (texture : Handle) (calls : List TextureCall) : Int :=
  (calls.countP (fun c => match c with
      | TextureCall.SDL_LockTexture t status => t == texture && status == 0
      | _ => false) : Int)
  - (calls.countP (fun c => match c with
      | TextureCall.SDL_UnlockTexture t => t == texture
      | _ => false) : Int)


/-! ## Render.hpp: the draw colour -/

/-- Modelled from the spec: the state that the native library keeps for a
renderer, as far as the draw colour is concerned: the current draw colour, and
the colour with which the whole target was last cleared or filled (`none` when
it never was). The pixels drawn by lines and rectangles are not part of it. -/
structure RenderState where
  drawColor : Color
  target : Option Color
  deriving DecidableEq, Repr

/-- Embeds `Color drawColor() const`; `status` is what `SDL_GetRenderDrawColor`
returns, and on success the call stores the current draw colour. -/
def Renderer.drawColor (_self : Renderer) (st : RenderState) (status : Int)
    (sdlError : String) : Except Exception Color :=
  if status ≠ 0 then Except.error (Exception.ctor "SDL_GetRenderDrawColor" sdlError)
  else Except.ok st.drawColor

/-- Embeds `void setDrawColor(const Color &c) const`, which forwards to
`setDrawColor(c.r, c.g, c.b, c.a)`; `status` is what `SDL_SetRenderDrawColor`
returns, and on success the call makes `c` the draw colour. Returns the outcome
and the state of the native renderer afterwards. -/
def Renderer.setDrawColor (_self : Renderer) (st : RenderState) (status : Int) (c : Color)
    (sdlError : String) : Except Exception Unit × RenderState :=
  if status ≠ 0 then (Except.error (Exception.ctor "SDL_SetRenderDrawColor" sdlError), st)
  else (Except.ok (), { st with drawColor := c })

/-- Embeds `void clear() const`; `status` is what `SDL_RenderClear` returns, and
on success the call clears the whole target with the draw colour. -/
def Renderer.clear (_self : Renderer) (st : RenderState) (status : Int)
    (sdlError : String) : Except Exception Unit × RenderState :=
  if status ≠ 0 then (Except.error (Exception.ctor "SDL_RenderClear" sdlError), st)
  else (Except.ok (), { st with target := some st.drawColor })

/-- Embeds `void clear(const Color &c) const`; `sGet`, `sSet`, `sClear` and
`sRestore` are the statuses of its four native calls, in order. -/
def Renderer.clearWith (self : Renderer) (st : RenderState) (sGet sSet sClear sRestore : Int)
    (c : Color) (sdlError : String) : Except Exception Unit × RenderState :=
  match self.drawColor st sGet sdlError with
  | Except.error e => (Except.error e, st)
  | Except.ok old =>
    match self.setDrawColor st sSet c sdlError with
    | (Except.error e, st1) => (Except.error e, st1)
    | (Except.ok (), st1) =>
      match self.clear st1 sClear sdlError with
      | (Except.error e, st2) => (Except.error e, st2)
      | (Except.ok (), st2) => self.setDrawColor st2 sRestore old sdlError

/-- Embeds `void fill(const Color &c) const`; `sSet` and `sFill` are the statuses
of `SDL_SetRenderDrawColor` and `SDL_RenderFillRect`, the latter filling the whole
target with the draw colour on success. -/
def Renderer.fillWith (self : Renderer) (st : RenderState) (sSet sFill : Int) (c : Color)
    (sdlError : String) : Except Exception Unit × RenderState :=
  match self.setDrawColor st sSet c sdlError with
  | (Except.error e, st1) => (Except.error e, st1)
  | (Except.ok (), st1) =>
    if sFill ≠ 0 then (Except.error (Exception.ctor "SDL_RenderFillRect" sdlError), st1)
    else (Except.ok (), { st1 with target := some st1.drawColor })

/-- Embeds `void drawRect(const Rect &rect, const Color &c) const`; `sSet` and
`sDraw` are the statuses of `SDL_SetRenderDrawColor` and `SDL_RenderDrawRect`. -/
def Renderer.drawRectWith (self : Renderer) (st : RenderState) (sSet sDraw : Int)
    (_rect : Rect) (c : Color) (sdlError : String) : Except Exception Unit × RenderState :=
  match self.setDrawColor st sSet c sdlError with
  | (Except.error e, st1) => (Except.error e, st1)
  | (Except.ok (), st1) =>
    if sDraw ≠ 0 then (Except.error (Exception.ctor "SDL_RenderDrawRect" sdlError), st1)
    else (Except.ok (), st1)

/-- Embeds `void drawLine(const Vec2i &pos1, const Vec2i &pos2, const Color &c)
const`; `sSet` and `sDraw` are the statuses of `SDL_SetRenderDrawColor` and
`SDL_RenderDrawLine`. -/
def Renderer.drawLineWith (self : Renderer) (st : RenderState) (sSet sDraw : Int)
    (_pos1 _pos2 : Vec2i) (c : Color) (sdlError : String) :
    Except Exception Unit × RenderState :=
  match self.setDrawColor st sSet c sdlError with
  | (Except.error e, st1) => (Except.error e, st1)
  | (Except.ok (), st1) =>
    if sDraw ≠ 0 then (Except.error (Exception.ctor "SDL_RenderDrawLine" sdlError), st1)
    else (Except.ok (), st1)

/-! ## GameController.hpp: opening every controller -/

/-- One iteration of the loop of `openAllAvailableControllers`, for the device
index `i`. An `Exception` thrown by the constructor is caught and the index
skipped. `emplace_back` may move the elements of the vector to new storage with
the move constructor; the model moves them at every insertion. -/
def GameController.openAllStep (SDL_IsGameController : Int → Bool)
    (SDL_GameControllerOpen : Int → Handle) (sdlError : String)
    (controllers : List GameController) (i : Nat) : List GameController :=
  if SDL_IsGameController i then
    match GameController.ctor SDL_GameControllerOpen i sdlError with
    | Except.ok c => controllers.map (fun x => (GameController.moveCtor x).self) ++ [c]
    | Except.error _ => controllers
  else controllers

/-- Embeds `static std::vector<GameController> openAllAvailableControllers()`;
`SDL_NumJoysticks` is what the native call of that name returns. -/
def GameController.openAllAvailableControllers (SDL_NumJoysticks : Int)
    (SDL_IsGameController : Int → Bool) (SDL_GameControllerOpen : Int → Handle)
    (sdlError : String) : List GameController :=
  (List.range SDL_NumJoysticks.toNat).foldl
    (GameController.openAllStep SDL_IsGameController SDL_GameControllerOpen sdlError) []


/-! ## Pixels.hpp: raw access to a pixel -/

/-- The bytes of memory, by address. -/
abbrev Memory := Nat → Nat

/-- The memory after the byte `v` has been stored at address `a`. -/
def Memory.write (mem : Memory) (a v : Nat) : Memory :=
  fun i => if i = a then v else mem i

/-- The memory after a store through a `Uint16 *` at address `a`, in the byte
order of the machine. -/
def storeUint16 (bigEndian : Bool) (mem : Memory) (a v : Nat) : Memory :=
  if bigEndian then (mem.write a (v / 256 % 256)).write (a + 1) (v % 256)
  else (mem.write a (v % 256)).write (a + 1) (v / 256 % 256)

/-- The value loaded through a `Uint16 *` at address `a`, in the byte order of the
machine. -/
def loadUint16 (bigEndian : Bool) (mem : Memory) (a : Nat) : Nat :=
  if bigEndian then mem a * 256 + mem (a + 1) else mem a + mem (a + 1) * 256

/-- The memory after a store through a `Uint32 *` at address `a`, in the byte
order of the machine. -/
def storeUint32 (bigEndian : Bool) (mem : Memory) (a v : Nat) : Memory :=
  if bigEndian then
    (((mem.write a (v / 16777216 % 256)).write (a + 1) (v / 65536 % 256)).write (a + 2)
      (v / 256 % 256)).write (a + 3) (v % 256)
  else
    (((mem.write a (v % 256)).write (a + 1) (v / 256 % 256)).write (a + 2)
      (v / 65536 % 256)).write (a + 3) (v / 16777216 % 256)

/-- The value loaded through a `Uint32 *` at address `a`, in the byte order of the
machine. -/
def loadUint32 (bigEndian : Bool) (mem : Memory) (a : Nat) : Nat :=
  if bigEndian then
    mem a * 16777216 + mem (a + 1) * 65536 + mem (a + 2) * 256 + mem (a + 3)
  else
    mem a + mem (a + 1) * 256 + mem (a + 2) * 65536 + mem (a + 3) * 16777216

/-- Embeds `class Pixel`: the address `m_target` and the field `BytesPerPixel` of
the format `m_fmt`. -/
structure Pixel where
  m_target : Nat
  BytesPerPixel : Nat
  deriving DecidableEq, Repr

/-- Embeds `void setRaw(Uint32 raw)`: the memory afterwards. `bigEndian` tells
whether `SDL_BYTEORDER == SDL_BIG_ENDIAN`. -/
def Pixel.setRaw (bigEndian : Bool) (self : Pixel) (mem : Memory) (raw : Nat) : Memory :=
  match self.BytesPerPixel with
  | 1 => mem.write self.m_target (raw % 256)
  | 2 => storeUint16 bigEndian mem self.m_target (raw % 65536)
  | 3 =>
    if bigEndian then
      ((mem.write self.m_target ((raw >>> 16) &&& 255)).write (self.m_target + 1)
        ((raw >>> 8) &&& 255)).write (self.m_target + 2) (raw &&& 255)
    else
      ((mem.write self.m_target (raw &&& 255)).write (self.m_target + 1)
        ((raw >>> 8) &&& 255)).write (self.m_target + 2) ((raw >>> 16) &&& 255)
  | 4 => storeUint32 bigEndian mem self.m_target raw
  | _ => mem

/-- Embeds `Uint32 getRaw() const`. -/
def Pixel.getRaw (bigEndian : Bool) (self : Pixel) (mem : Memory) : Nat :=
  match self.BytesPerPixel with
  | 1 => mem self.m_target
  | 2 => loadUint16 bigEndian mem self.m_target
  | 3 =>
    if bigEndian then
      ((mem self.m_target <<< 16) ||| (mem (self.m_target + 1) <<< 8))
        ||| mem (self.m_target + 2)
    else
      (mem self.m_target ||| (mem (self.m_target + 1) <<< 8))
        ||| (mem (self.m_target + 2) <<< 16)
  | 4 => loadUint32 bigEndian mem self.m_target
  | _ => 0


/-! # Properties -/

/-! ## Move-assignment and the source object -/

/-- C1, as stated, fails. A non-owning `Joystick` view and an owning `Joystick`
of the same handle `7`: after `view = std::move(owner)` the source still holds
`7` with its flag set and its destructor closes `7`. Two default-constructed
`GameController` objects: after the move-assignment the source keeps a true
ownership flag. Two `Surface` objects of handles `1` and `2`: the destructor of
the source calls `SDL_FreeSurface` (on the null handle). -/
theorem moveAssign_source_counterexample :
    ((Joystick.moveAssign (Joystick.nonOwning 7) (Joystick.ctorFromPointer 7)).other
        = { m_joystick := 7, m_owner := true }
      ∧ Joystick.destructor
          (Joystick.moveAssign (Joystick.nonOwning 7) (Joystick.ctorFromPointer 7)).other
        = [NativeCall.SDL_JoystickClose 7])
    ∧ (GameController.moveAssign GameController.default GameController.default).other.m_owned
        = true
    ∧ Surface.destructor (Surface.moveAssign { m_surface := 1 } { m_surface := 2 }).other
        = [NativeCall.SDL_FreeSurface nullptr] := by
  decide

/-- C1, amended. `h2` is the handle of the destination, `h1` that of the source
(`o2`, `o1` their ownership flags and `e2`, `e1` their effect registries, where
the class has them). When `h2 ≠ h1`, after the move-assignment the source holds
the null handle (and a false flag for `Joystick` and `GameController`); its
destructor makes no native call for `SharedObject`, `Cursor`, `Haptic`,
`Joystick` and `GameController`, and for `Surface`, `Texture`, `Renderer` and
`Window` its only native call is the teardown function on the null handle. -/
theorem moveAssign_source_emptied (h2 h1 : Handle) (o2 o1 : Bool) (e2 e1 : List EffectId)
    (hne : h2 ≠ h1) :
    ((Surface.moveAssign { m_surface := h2 } { m_surface := h1 }).other
        = { m_surface := nullptr }
      ∧ Surface.destructor (Surface.moveAssign { m_surface := h2 } { m_surface := h1 }).other
        = [NativeCall.SDL_FreeSurface nullptr])
    ∧ ((Texture.moveAssign { m_texture := h2 } { m_texture := h1 }).other
        = { m_texture := nullptr }
      ∧ Texture.destructor (Texture.moveAssign { m_texture := h2 } { m_texture := h1 }).other
        = [NativeCall.SDL_DestroyTexture nullptr])
    ∧ ((Renderer.moveAssign { m_renderer := h2 } { m_renderer := h1 }).other
        = { m_renderer := nullptr }
      ∧ Renderer.destructor
          (Renderer.moveAssign { m_renderer := h2 } { m_renderer := h1 }).other
        = [NativeCall.SDL_DestroyRenderer nullptr])
    ∧ ((Window.moveAssign { m_window := h2 } { m_window := h1 }).other
        = { m_window := nullptr }
      ∧ Window.destructor (Window.moveAssign { m_window := h2 } { m_window := h1 }).other
        = [NativeCall.SDL_DestroyWindow nullptr])
    ∧ ((SharedObject.moveAssign { m_handle := h2 } { m_handle := h1 }).other
        = { m_handle := nullptr }
      ∧ SharedObject.destructor
          (SharedObject.moveAssign { m_handle := h2 } { m_handle := h1 }).other = [])
    ∧ ((Cursor.moveAssign { m_cursor := h2 } { m_cursor := h1 }).other
        = { m_cursor := nullptr }
      ∧ Cursor.destructor (Cursor.moveAssign { m_cursor := h2 } { m_cursor := h1 }).other
        = [])
    ∧ ((Haptic.moveAssign { m_haptic := h2, myEffects := e2 }
          { m_haptic := h1, myEffects := e1 }).other.m_haptic = nullptr
      ∧ Haptic.destructor (Haptic.moveAssign { m_haptic := h2, myEffects := e2 }
          { m_haptic := h1, myEffects := e1 }).other = [])
    ∧ ((Joystick.moveAssign { m_joystick := h2, m_owner := o2 }
          { m_joystick := h1, m_owner := o1 }).other
        = { m_joystick := nullptr, m_owner := false }
      ∧ Joystick.destructor (Joystick.moveAssign { m_joystick := h2, m_owner := o2 }
          { m_joystick := h1, m_owner := o1 }).other = [])
    ∧ ((GameController.moveAssign { m_controller := h2, m_owned := o2 }
          { m_controller := h1, m_owned := o1 }).other
        = { m_controller := nullptr, m_owned := false }
      ∧ GameController.destructor
          (GameController.moveAssign { m_controller := h2, m_owned := o2 }
            { m_controller := h1, m_owned := o1 }).other = []) := by
  simp [Surface.moveAssign, Surface.destructor, Texture.moveAssign, Texture.destructor,
    Renderer.moveAssign, Renderer.destructor, Window.moveAssign, Window.destructor,
    SharedObject.moveAssign, SharedObject.destructor, Cursor.moveAssign, Cursor.destructor,
    Haptic.moveAssign, Haptic.destructor, Joystick.moveAssign, Joystick.destructor,
    GameController.moveAssign, GameController.destructor, hne]

/-- The amended C1 at destination handle `2` and source handle `1`, for `Surface`
and for an owning `Joystick` assigned to an owning `Joystick`. -/
theorem moveAssign_source_emptied_witness :
    (2 : Handle) ≠ 1
    ∧ Surface.destructor (Surface.moveAssign { m_surface := 2 } { m_surface := 1 }).other
        = [NativeCall.SDL_FreeSurface nullptr]
    ∧ (Joystick.moveAssign { m_joystick := 2, m_owner := true }
          { m_joystick := 1, m_owner := true }).other
        = { m_joystick := nullptr, m_owner := false } :=
  ⟨by decide,
   (moveAssign_source_emptied 2 1 true true [] [] (by decide)).1.2,
   (moveAssign_source_emptied 2 1 true true [] [] (by decide)).2.2.2.2.2.2.2.1.1⟩

/-! ## Destructors -/

/-- C5. The destructor of `Joystick` and of `GameController` makes exactly the
native close call on the handle when the ownership flag is true and the handle
is not null; the destructor of `Haptic`, `SharedObject` and `Cursor` makes
exactly the native teardown call on the handle when the handle is not null; in
every other state the destructor makes no native call. -/
theorem destructor_releases_iff_owned_and_nonnull :
    (∀ j : Joystick, Joystick.destructor j =
        if j.m_owner = true ∧ j.m_joystick ≠ nullptr
        then [NativeCall.SDL_JoystickClose j.m_joystick] else [])
    ∧ (∀ g : GameController, GameController.destructor g =
        if g.m_owned = true ∧ g.m_controller ≠ nullptr
        then [NativeCall.SDL_GameControllerClose g.m_controller] else [])
    ∧ (∀ x : Haptic, Haptic.destructor x =
        if x.m_haptic ≠ nullptr then [NativeCall.SDL_HapticClose x.m_haptic] else [])
    ∧ (∀ o : SharedObject, SharedObject.destructor o =
        if o.m_handle ≠ nullptr then [NativeCall.SDL_UnloadObject o.m_handle] else [])
    ∧ (∀ c : Cursor, Cursor.destructor c =
        if c.m_cursor ≠ nullptr then [NativeCall.SDL_FreeCursor c.m_cursor] else []) := by
  refine ⟨?_, ?_, ?_, ?_, ?_⟩
  · intro j
    cases hj : j.m_owner <;> by_cases hn : j.m_joystick = nullptr <;>
      simp [Joystick.destructor, hj, hn]
  · intro g
    cases hg : g.m_owned <;> by_cases hn : g.m_controller = nullptr <;>
      simp [GameController.destructor, hg, hn]
  · intro x; rfl
  · intro o; rfl
  · intro c; rfl

/-! ## Non-owning views -/

/-- A `Joystick` whose destructor makes no call gives, by move-construction, a
new object and a moved-from object whose destructors make no call. -/
theorem Joystick_moveCtor_destructor_nil (j : Joystick) (hj : Joystick.destructor j = []) :
    Joystick.destructor (Joystick.moveCtor j).self = []
    ∧ Joystick.destructor (Joystick.moveCtor j).other = [] := by
  obtain ⟨h, o⟩ := j
  by_cases hn : h = nullptr
  · subst hn
    simp [Joystick.moveCtor, Joystick.moveAssign, Joystick.destructor]
  · have hn2 : ¬ (nullptr = h) := fun e => hn e.symm
    cases o
    · simp [Joystick.moveCtor, Joystick.moveAssign, Joystick.destructor, hn2]
    · simp [Joystick.destructor, hn] at hj

/-- A `GameController` whose destructor makes no call gives, by
move-construction, a new object and a moved-from object whose destructors make
no call. -/
theorem GameController_moveCtor_destructor_nil (g : GameController)
    (hg : GameController.destructor g = []) :
    GameController.destructor (GameController.moveCtor g).self = []
    ∧ GameController.destructor (GameController.moveCtor g).other = [] := by
  obtain ⟨h, o⟩ := g
  by_cases hn : h = nullptr
  · subst hn
    simp [GameController.moveCtor, GameController.moveAssign, GameController.destructor]
  · have hn2 : ¬ (nullptr = h) := fun e => hn e.symm
    cases o
    · simp [GameController.moveCtor, GameController.moveAssign, GameController.destructor,
        hn2]
    · simp [GameController.destructor, hn] at hg

/-- C6. For every handle `h`, null or not, the destructor of the object returned
by `Joystick::nonOwning(h)` or `GameController::nonOwning(h)` makes no native
call, and neither does the destructor of an object obtained from it by `n`
successive move-constructions (`n = 1`: move-constructed from the view), nor the
destructor of the view once it has been moved from. -/
theorem nonOwning_never_releases (h : Handle) (n : Nat) :
    (Joystick.destructor (Joystick.nonOwning h) = []
      ∧ Joystick.destructor
          ((fun j => (Joystick.moveCtor j).self)^[n] (Joystick.nonOwning h)) = []
      ∧ Joystick.destructor (Joystick.moveCtor (Joystick.nonOwning h)).other = [])
    ∧ (GameController.destructor (GameController.nonOwning h) = []
      ∧ GameController.destructor
          ((fun g => (GameController.moveCtor g).self)^[n] (GameController.nonOwning h)) = []
      ∧ GameController.destructor
          (GameController.moveCtor (GameController.nonOwning h)).other = []) := by
  have hJ : Joystick.destructor (Joystick.nonOwning h) = [] := by
    simp [Joystick.destructor, Joystick.nonOwning]
  have hG : GameController.destructor (GameController.nonOwning h) = [] := by
    simp [GameController.destructor, GameController.nonOwning]
  refine ⟨⟨hJ, ?_, (Joystick_moveCtor_destructor_nil _ hJ).2⟩,
    ⟨hG, ?_, (GameController_moveCtor_destructor_nil _ hG).2⟩⟩
  · induction n with
    | zero => simpa using hJ
    | succ k ih =>
      rw [Function.iterate_succ_apply']
      exact (Joystick_moveCtor_destructor_nil _ ih).1
  · induction n with
    | zero => simpa using hG
    | succ k ih =>
      rw [Function.iterate_succ_apply']
      exact (GameController_moveCtor_destructor_nil _ ih).1

/-! ## Opening constructors -/

/-- C7. Each opening constructor throws (the `SDL::Exception` naming its native
factory) exactly when the factory returned the null handle, in which case there
is no object; and it yields an object exactly when the factory returned a
non-null handle, the object then holding that handle (with a true ownership flag
for `Joystick` and `GameController`, an empty registry for `Haptic`). -/
theorem opening_ctor_fails_iff_null (err : String) :
    (∀ (SDL_JoystickOpen : Int → Handle) (index : Int),
      (Joystick.ctor SDL_JoystickOpen index err
          = Except.error (Exception.ctor "SDL_JoystickOpen" err)
        ↔ SDL_JoystickOpen index = nullptr)
      ∧ (Joystick.ctor SDL_JoystickOpen index err
          = Except.ok { m_joystick := SDL_JoystickOpen index, m_owner := true }
        ↔ SDL_JoystickOpen index ≠ nullptr))
    ∧ (∀ (SDL_GameControllerOpen : Int → Handle) (joystickIndex : Int),
      (GameController.ctor SDL_GameControllerOpen joystickIndex err
          = Except.error (Exception.ctor "SDL_GameControllerOpen" err)
        ↔ SDL_GameControllerOpen joystickIndex = nullptr)
      ∧ (GameController.ctor SDL_GameControllerOpen joystickIndex err
          = Except.ok { m_controller := SDL_GameControllerOpen joystickIndex, m_owned := true }
        ↔ SDL_GameControllerOpen joystickIndex ≠ nullptr))
    ∧ (∀ (SDL_HapticOpen : Int → Handle) (index : Int),
      (Haptic.ctor SDL_HapticOpen index err
          = Except.error (Exception.ctor "SDL_HapticOpen" err)
        ↔ SDL_HapticOpen index = nullptr)
      ∧ (Haptic.ctor SDL_HapticOpen index err
          = Except.ok { m_haptic := SDL_HapticOpen index, myEffects := [] }
        ↔ SDL_HapticOpen index ≠ nullptr))
    ∧ (∀ (SDL_HapticOpenFromJoystick : Handle → Handle) (joystick : Handle),
      (Haptic.ctorFromJoystick SDL_HapticOpenFromJoystick joystick err
          = Except.error (Exception.ctor "SDL_HapticOpenFromJoystick" err)
        ↔ SDL_HapticOpenFromJoystick joystick = nullptr)
      ∧ (Haptic.ctorFromJoystick SDL_HapticOpenFromJoystick joystick err
          = Except.ok { m_haptic := SDL_HapticOpenFromJoystick joystick, myEffects := [] }
        ↔ SDL_HapticOpenFromJoystick joystick ≠ nullptr))
    ∧ (∀ (SDL_LoadObject : String → Handle) (filename : String),
      (SharedObject.ctor SDL_LoadObject filename err
          = Except.error (Exception.ctor "SDL_LoadObject" err)
        ↔ SDL_LoadObject filename = nullptr)
      ∧ (SharedObject.ctor SDL_LoadObject filename err
          = Except.ok { m_handle := SDL_LoadObject filename }
        ↔ SDL_LoadObject filename ≠ nullptr))
    ∧ (∀ created : Handle,
      (Window.ctor created err = Except.error (Exception.ctor "SDL_CreateWindow" err)
        ↔ created = nullptr)
      ∧ (Window.ctor created err = Except.ok { m_window := created }
        ↔ created ≠ nullptr)) := by
  refine ⟨?_, ?_, ?_, ?_, ?_, ?_⟩
  · intro f i
    by_cases hn : f i = nullptr <;> simp [Joystick.ctor, hn]
  · intro f i
    by_cases hn : f i = nullptr <;> simp [GameController.ctor, hn]
  · intro f i
    by_cases hn : f i = nullptr <;> simp [Haptic.ctor, hn]
  · intro f i
    by_cases hn : f i = nullptr <;> simp [Haptic.ctorFromJoystick, hn]
  · intro f i
    by_cases hn : f i = nullptr <;> simp [SharedObject.ctor, hn]
  · intro c
    by_cases hn : c = nullptr <;> simp [Window.ctor, hn]

/-! ## The effect registry of `Haptic` -/

/-- One iteration of the loop of `removeEffect` at index `k`: slot `k` holds `-1`
if it held `e`, and every slot that did not hold `e` is untouched. -/
theorem Haptic.removeEffectStep_getElem? (e : EffectId) (r : List EffectId) (k i : Nat) :
    (Haptic.removeEffectStep e r k)[i]? =
      if i = k then (r[k]?).map (fun x => if x = e then -1 else x) else r[i]? := by
  unfold Haptic.removeEffectStep
  by_cases hik : i = k
  · subst hik
    by_cases hre : r[i]? = some e
    · have hlen : i < r.length := (List.getElem?_eq_some_iff.mp hre).1
      simp [hre, List.getElem?_set_self, hlen]
    · simp only [hre, if_false, if_true]
      cases hx : r[i]? with
      | none => rfl
      | some x =>
        have hxe : x ≠ e := fun h => hre (by rw [hx, h])
        simp [hxe]
  · simp only [hik, if_false]
    split
    · exact List.getElem?_set_ne (fun h => hik h.symm)
    · rfl

/-- After the first `n` iterations of the loop of `removeEffect`, the slots below
`n` that held `e` hold `-1`, and every other slot holds what it held. -/
theorem Haptic.removeEffect_loop (e : EffectId) (l : List EffectId) (n : Nat) :
    ∀ i, ((List.range n).foldl (Haptic.removeEffectStep e) l)[i]? =
      if i < n then (l[i]?).map (fun x => if x = e then -1 else x) else l[i]? := by
  induction n with
  | zero => intro i; simp
  | succ k ih =>
    intro i
    rw [List.range_succ, List.foldl_append]
    simp only [List.foldl_cons, List.foldl_nil]
    rw [Haptic.removeEffectStep_getElem?]
    by_cases hik : i = k
    · subst hik
      have hk := ih i
      simp only [lt_irrefl, if_false] at hk
      simp [hk]
    · have hiff : i < k + 1 ↔ i < k := by omega
      simp only [hik, if_false, hiff]
      exact ih i

/-- The loop of `removeEffect` replaces every slot equal to `e` by `-1` and
keeps the others. -/
theorem Haptic.removeEffect_myEffects (self : Haptic) (e : EffectId) :
    (self.removeEffect e).myEffects
      = self.myEffects.map (fun x => if x = e then -1 else x) := by
  apply List.ext_getElem?
  intro i
  show ((List.range self.myEffects.length).foldl (Haptic.removeEffectStep e)
    self.myEffects)[i]? = _
  rw [Haptic.removeEffect_loop, List.getElem?_map]
  by_cases hi : i < self.myEffects.length
  · simp [hi]
  · have hnone : self.myEffects[i]? = none := List.getElem?_eq_none (by omega)
    simp [hi, hnone]

/-- C8. An installed effect (non-null owner, valid index) whose slot in the
registry of its owner holds the native identifier `e ≥ 0`: its destructor
destroys the native effect `e` and runs `removeEffect(e)`, after which no slot of
the registry holds `e`, so `getEffectId` returns `e` for no handle. -/
theorem installedEffect_destroyed_id_gone (eff : InstalledEffect) (owner : Haptic)
    (e : EffectId) (howner : eff.m_owner.isSome = true)
    (hvalid : eff.m_index ≠ InstalledEffect.invalidIndex)
    (hslot : owner.myEffects[eff.m_index]? = some e) (he : 0 ≤ e) :
    InstalledEffect.destructor eff owner
        = Except.ok (owner.removeEffect e, [NativeCall.SDL_HapticDestroyEffect owner.ptr e])
      ∧ e ∉ (owner.removeEffect e).myEffects
      ∧ ∀ k : InstalledEffect, (owner.removeEffect e).getEffectId k ≠ Except.ok e := by
  have hgone : e ∉ (owner.removeEffect e).myEffects := by
    rw [Haptic.removeEffect_myEffects, List.mem_map]
    rintro ⟨x, -, hx⟩
    by_cases hxe : x = e
    · rw [if_pos hxe] at hx
      have hneg : (-1 : Int) = e := hx
      have hpos : (0 : Int) ≤ e := he
      omega
    · simp only [hxe, if_false] at hx
  refine ⟨?_, hgone, ?_⟩
  · simp [InstalledEffect.destructor, Haptic.getEffectId, howner, hvalid, hslot]
  · intro k hk
    unfold Haptic.getEffectId at hk
    cases hx : (owner.removeEffect e).myEffects[k.m_index]? with
    | none => simp [hx] at hk
    | some x =>
      simp only [hx, Except.ok.injEq] at hk
      subst hk
      exact hgone (List.getElem?_mem hx)

/-- C8 at the registry `[3, 4, 3]` of the device `5`, for the handle of index `1`
(native identifier `4`). -/
theorem installedEffect_destroyed_id_gone_witness :
    InstalledEffect.destructor { m_index := 1, m_owner := some 0 }
        { m_haptic := 5, myEffects := [3, 4, 3] }
      = Except.ok (Haptic.removeEffect { m_haptic := 5, myEffects := [3, 4, 3] } 4,
          [NativeCall.SDL_HapticDestroyEffect 5 4])
    ∧ (4 : EffectId) ∉ (Haptic.removeEffect { m_haptic := 5, myEffects := [3, 4, 3] } 4).myEffects :=
  ⟨(installedEffect_destroyed_id_gone { m_index := 1, m_owner := some 0 }
      { m_haptic := 5, myEffects := [3, 4, 3] } 4 rfl (by decide) rfl (by decide)).1,
   (installedEffect_destroyed_id_gone { m_index := 1, m_owner := some 0 }
      { m_haptic := 5, myEffects := [3, 4, 3] } 4 rfl (by decide) rfl (by decide)).2.1⟩

/-- C9. `removeEffect(e)` does not compact the registry: the count of registered
effects is unchanged, and at every index a slot that held `e` now holds `-1`
while a slot that held another value still holds it (the device handle is
unchanged too). -/
theorem removeEffect_marks_without_compacting (self : Haptic) (e : EffectId) :
    (self.removeEffect e).registeredEffectCount = self.registeredEffectCount
    ∧ (∀ i : Nat, (self.removeEffect e).myEffects[i]?
        = (self.myEffects[i]?).map (fun x => if x = e then -1 else x))
    ∧ (self.removeEffect e).m_haptic = self.m_haptic := by
  refine ⟨?_, ?_, rfl⟩
  · simp [Haptic.registeredEffectCount, Haptic.removeEffect_myEffects]
  · intro i
    rw [Haptic.removeEffect_myEffects, List.getElem?_map]

/-- C10. When the device supports the type of the effect (`isCapableOf` returns
true): if the native call returns an identifier `id ≥ 0`, `newEffect` returns a
handle and a registry that has one more entry, whose earlier entries are
unchanged, the handle carrying the previous count as its index and the object as
its owner, and `getEffectId` of the handle is `id`; if the native call returns a
negative identifier, `newEffect` throws the `SDL::Exception` of
`SDL_HapticNewEffect` and yields no new state. -/
theorem newEffect_appends_one (self : Haptic) (thisPtr : Nat)
    (SDL_HapticQuery : Handle → Nat) (SDL_HapticNewEffect : Handle → Effect → EffectId)
    (err : String) (e : Effect)
    (hcap : self.isCapableOf SDL_HapticQuery err e.type = Except.ok true) :
    (0 ≤ SDL_HapticNewEffect self.m_haptic e →
      ∃ (eff : InstalledEffect) (after : Haptic),
        self.newEffect thisPtr SDL_HapticQuery SDL_HapticNewEffect err e
          = Except.ok (eff, after)
        ∧ after.registeredEffectCount = self.registeredEffectCount + 1
        ∧ (∀ i, i < self.registeredEffectCount → after.myEffects[i]? = self.myEffects[i]?)
        ∧ eff.m_index = self.registeredEffectCount
        ∧ eff.m_owner = some thisPtr
        ∧ after.getEffectId eff = Except.ok (SDL_HapticNewEffect self.m_haptic e)
        ∧ after.m_haptic = self.m_haptic)
    ∧ (SDL_HapticNewEffect self.m_haptic e < 0 →
        self.newEffect thisPtr SDL_HapticQuery SDL_HapticNewEffect err e
          = Except.error (Thrown.exception (Exception.ctor "SDL_HapticNewEffect" err))) := by
  constructor
  · intro hid
    have hnot : ¬ SDL_HapticNewEffect self.m_haptic e < 0 := not_lt.mpr hid
    refine ⟨{ m_index := self.myEffects.length, m_owner := some thisPtr },
      { self with myEffects := self.myEffects ++ [SDL_HapticNewEffect self.m_haptic e] },
      ?_, ?_, ?_, rfl, rfl, ?_, rfl⟩
    · simp [Haptic.newEffect, hcap, hnot]
    · simp [Haptic.registeredEffectCount]
    · intro i hi
      simp only [Haptic.registeredEffectCount] at hi
      simp [List.getElem?_append_left hi]
    · simp [Haptic.getEffectId]
  · intro hneg
    simp [Haptic.newEffect, hcap, hneg]

/-- C10 on the device `5` with registry `[3]`, capabilities `1`, an effect of
type `1`, and a native library that issues the identifier `7`. -/
theorem newEffect_appends_one_witness :
    Haptic.isCapableOf { m_haptic := 5, myEffects := [3] } (fun _ => 1) "" 1 = Except.ok true
    ∧ ∃ (eff : InstalledEffect) (after : Haptic),
        Haptic.newEffect { m_haptic := 5, myEffects := [3] } 9 (fun _ => 1) (fun _ _ => 7) ""
            { type := 1, payload := [] } = Except.ok (eff, after)
        ∧ after.registeredEffectCount = 2
        ∧ eff.m_index = 1
        ∧ after.getEffectId eff = Except.ok 7 := by
  obtain ⟨eff, after, hrun, hcount, -, hidx, -, hget, -⟩ :=
    (newEffect_appends_one { m_haptic := 5, myEffects := [3] } 9 (fun _ => 1)
      (fun _ _ => 7) "" { type := 1, payload := [] } rfl).1 (by decide)
  exact ⟨rfl, eff, after, hrun, hcount, hidx, hget⟩

/-! ## Lifetimes: counting owners and releases -/

/-- Overwriting slot `i`, which held `a`, with `x` changes the number of
elements satisfying `p` by the difference between `x` and `a`. -/
theorem countP_set_add {α : Type} (p : α → Bool) (l : List α) (i : Nat) (x a : α)
    (h : l[i]? = some a) :
    (l.set i x).countP p + (p a).toNat = l.countP p + (p x).toNat := by
  obtain ⟨hi, rfl⟩ := List.getElem?_eq_some_iff.mp h
  have hle := List.boole_getElem_le_countP p l i hi
  have hset := List.countP_set p l i x hi
  cases hpa : p l[i] <;> cases hpx : p x <;>
    simp only [hpa, hpx, Bool.toNat_true, Bool.toNat_false, if_true, if_false,
      Bool.false_eq_true] at hle hset ⊢ <;> omega

/-- Writing back into a slot what it holds changes nothing. -/
theorem set_of_getElem? {α : Type} (l : List α) (i : Nat) (a : α) (h : l[i]? = some a) :
    l.set i a = l := by
  apply List.ext_getElem?
  intro j
  by_cases hj : i = j
  · subst hj
    have hi : i < l.length := (List.getElem?_eq_some_iff.mp h).1
    rw [List.getElem?_set_self hi, h]
  · rw [List.getElem?_set_ne hj]

theorem Surface_wrapper_transfers : Surface.wrapper.Transfers := by
  refine ⟨rfl, ?_, ?_⟩
  · intro a b hab
    have hab2 : a.m_surface = b.m_surface := hab
    simp [Surface.wrapper, Surface.moveAssign, hab2]
  · intro a b hab
    have hab2 : a.m_surface ≠ b.m_surface := hab
    simp [Surface.wrapper, Surface.moveAssign, hab2]

theorem Texture_wrapper_transfers : Texture.wrapper.Transfers := by
  refine ⟨rfl, ?_, ?_⟩
  · intro a b hab
    have hab2 : a.m_texture = b.m_texture := hab
    simp [Texture.wrapper, Texture.moveAssign, hab2]
  · intro a b hab
    have hab2 : a.m_texture ≠ b.m_texture := hab
    simp [Texture.wrapper, Texture.moveAssign, hab2]

theorem Renderer_wrapper_transfers : Renderer.wrapper.Transfers := by
  refine ⟨rfl, ?_, ?_⟩
  · intro a b hab
    have hab2 : a.m_renderer = b.m_renderer := hab
    simp [Renderer.wrapper, Renderer.moveAssign, hab2]
  · intro a b hab
    have hab2 : a.m_renderer ≠ b.m_renderer := hab
    simp [Renderer.wrapper, Renderer.moveAssign, hab2]

theorem Window_wrapper_transfers : Window.wrapper.Transfers := by
  refine ⟨rfl, ?_, ?_⟩
  · intro a b hab
    have hab2 : a.m_window = b.m_window := hab
    simp [Window.wrapper, Window.moveAssign, hab2]
  · intro a b hab
    have hab2 : a.m_window ≠ b.m_window := hab
    simp [Window.wrapper, Window.moveAssign, hab2]

theorem SharedObject_wrapper_transfers : SharedObject.wrapper.Transfers := by
  refine ⟨rfl, ?_, ?_⟩
  · intro a b hab
    have hab2 : a.m_handle = b.m_handle := hab
    simp [SharedObject.wrapper, SharedObject.moveAssign, hab2]
  · intro a b hab
    have hab2 : a.m_handle ≠ b.m_handle := hab
    simp [SharedObject.wrapper, SharedObject.moveAssign, hab2]

theorem Cursor_wrapper_transfers : Cursor.wrapper.Transfers := by
  refine ⟨rfl, ?_, ?_⟩
  · intro a b hab
    have hab2 : a.m_cursor = b.m_cursor := hab
    simp [Cursor.wrapper, Cursor.moveAssign, hab2]
  · intro a b hab
    have hab2 : a.m_cursor ≠ b.m_cursor := hab
    simp [Cursor.wrapper, Cursor.moveAssign, hab2]

theorem Haptic_wrapper_transfers : Haptic.wrapper.Transfers := by
  refine ⟨rfl, ?_, ?_⟩
  · intro a b hab
    have hab2 : a.m_haptic = b.m_haptic := hab
    simp [Haptic.wrapper, Haptic.moveAssign, hab2]
  · intro a b hab
    have hab2 : a.m_haptic ≠ b.m_haptic := hab
    simp [Haptic.wrapper, Haptic.moveAssign, hab2]

theorem Joystick_wrapper_transfers : Joystick.wrapper.Transfers := by
  refine ⟨rfl, ?_, ?_⟩
  · intro a b hab
    have hab2 : a.m_joystick = b.m_joystick := hab
    simp [Joystick.wrapper, Joystick.moveAssign, hab2]
  · intro a b hab
    have hab2 : a.m_joystick ≠ b.m_joystick := hab
    simp [Joystick.wrapper, Joystick.moveAssign, hab2]

theorem GameController_wrapper_transfers : GameController.wrapper.Transfers := by
  refine ⟨rfl, ?_, ?_⟩
  · intro a b hab
    have hab2 : a.m_controller = b.m_controller := hab
    simp [GameController.wrapper, GameController.moveAssign, hab2]
  · intro a b hab
    have hab2 : a.m_controller ≠ b.m_controller := hab
    simp [GameController.wrapper, GameController.moveAssign, hab2]

/-- In a class without ownership flag, the teardown count `if handle = h then 1
else 0` is the indicator of `owns h`. -/
theorem WrapperClass.owns_toNat {W : Type} (C : WrapperClass W) (ho : ∀ a, C.owner a = true)
    (a : W) (h : Handle) :
    (C.owns h (some a)).toNat = if C.handle a = h then 1 else 0 := by
  by_cases hah : C.handle a = h <;> simp [WrapperClass.owns, ho a, hah]

/-- A step never adds an owner of a non-null handle; and in a class that releases
what it overwrites, the owners of a non-null handle and the teardown calls made
on it keep their total. -/
theorem World.exec_counts {W : Type} (C : WrapperClass W) (hT : C.Transfers) (w : World W)
    (st : Statement) (h : Handle) (hnn : h ≠ nullptr) :
    (w.exec C st).ownerCount C h ≤ w.ownerCount C h
    ∧ (C.ReleasesOverwritten →
        (w.exec C st).ownerCount C h + (w.exec C st).releaseCount C h
          = w.ownerCount C h + w.releaseCount C h) := by
  obtain ⟨hfresh, hsame, hdiff⟩ := hT
  have hnull : ∀ x : W, C.handle x = nullptr → (C.owns h (some x)).toNat = 0 := by
    intro x hx
    have hne : ¬ (nullptr = h) := fun e => hnn e.symm
    simp [WrapperClass.owns, hx, hne]
  cases st with
  | moveAssign d s =>
    rcases hd : w.objects[d]? with _ | _ | a
    · simp [World.exec, hd]
    · simp [World.exec, hd]
    rcases hs : w.objects[s]? with _ | _ | b
    · simp [World.exec, hd, hs]
    · simp [World.exec, hd, hs]
    by_cases hab : C.handle a = C.handle b
    · have hw : w.exec C (Statement.moveAssign d s) = w := by
        simp only [World.exec, hd, hs, hsame a b hab, List.append_nil]
        rw [set_of_getElem? w.objects d (some a) hd, set_of_getElem? w.objects s (some b) hs]
      rw [hw]
      exact ⟨le_refl _, fun _ => rfl⟩
    · obtain ⟨h1, h2, h3⟩ := hdiff a b hab
      have hds : d ≠ s := by
        rintro rfl
        rw [hd] at hs
        simp only [Option.some.injEq] at hs
        exact hab (by rw [hs])
      have hs1 : (w.objects.set d (some (C.moveAssign a b).self))[s]? = some (some b) := by
        rw [List.getElem?_set_ne hds, hs]
      have e1 := countP_set_add (C.owns h) w.objects d (some (C.moveAssign a b).self)
        (some a) hd
      have e2 := countP_set_add (C.owns h) (w.objects.set d (some (C.moveAssign a b).self)) s
        (some (C.moveAssign a b).other) (some b) hs1
      have e3 := hnull _ h3
      have e4 : C.owns h (some (C.moveAssign a b).self) = C.owns h (some b) := by
        simp [WrapperClass.owns, h1, h2]
      rw [e3] at e2
      rw [e4] at e1
      simp only [World.ownerCount, World.releaseCount, World.exec, hd, hs, List.count_append]
      constructor
      · omega
      · rintro ⟨ho, hcalls, -⟩
        have e5 := hcalls a b h hnn hab
        rw [← C.owns_toNat ho a h] at e5
        omega
  | moveCtor s =>
    rcases hs : w.objects[s]? with _ | _ | b
    · simp [World.exec, hs]
    · simp [World.exec, hs]
    have e0 := hnull _ hfresh
    by_cases hab : C.handle C.fresh = C.handle b
    · have e1 : (w.exec C (Statement.moveCtor s)).objects = w.objects ++ [some C.fresh] := by
        simp only [World.exec, hs, hsame _ b hab]
        rw [set_of_getElem? w.objects s (some b) hs]
      have e2 : (w.exec C (Statement.moveCtor s)).trace = w.trace := by
        simp only [World.exec, hs, hsame _ b hab, List.append_nil]
      have e3 : [some C.fresh].countP (C.owns h) = (C.owns h (some C.fresh)).toNat := by
        cases hc : C.owns h (some C.fresh) <;> simp [List.countP_cons, hc]
      simp only [World.ownerCount, World.releaseCount, e1, e2, List.countP_append, e3, e0]
      exact ⟨le_refl _, fun _ => rfl⟩
    · obtain ⟨h1, h2, h3⟩ := hdiff C.fresh b hab
      have e1 := countP_set_add (C.owns h) w.objects s (some (C.moveAssign C.fresh b).other)
        (some b) hs
      have e3 := hnull _ h3
      have e4 : [some (C.moveAssign C.fresh b).self].countP (C.owns h)
          = (C.owns h (some b)).toNat := by
        have e5 : C.owns h (some (C.moveAssign C.fresh b).self) = C.owns h (some b) := by
          simp [WrapperClass.owns, h1, h2]
        cases hc : C.owns h (some b) <;> simp [List.countP_cons, e5, hc]
      rw [e3] at e1
      simp only [World.ownerCount, World.releaseCount, World.exec, hs, List.count_append,
        List.countP_append, e4]
      constructor
      · omega
      · rintro ⟨ho, hcalls, -⟩
        have e5 := hcalls C.fresh b h hnn hab
        rw [← C.owns_toNat ho C.fresh h, e0] at e5
        omega
  | destroy i =>
    rcases hi : w.objects[i]? with _ | _ | a
    · simp [World.exec, hi]
    · simp [World.exec, hi]
    have e1 := countP_set_add (C.owns h) w.objects i none (some a) hi
    have e2 : (C.owns h (none : Option W)).toNat = 0 := rfl
    rw [e2] at e1
    simp only [World.ownerCount, World.releaseCount, World.exec, hi, List.count_append]
    constructor
    · omega
    · rintro ⟨ho, -, hdtor⟩
      have e5 := hdtor a h hnn
      rw [← C.owns_toNat ho a h] at e5
      omega

/-- A program never adds an owner of a non-null handle; and in a class that
releases what it overwrites, the owners of a non-null handle and the teardown
calls made on it keep their total. -/
theorem World.run_counts {W : Type} (C : WrapperClass W) (hT : C.Transfers)
    (prog : List Statement) (w : World W) (h : Handle) (hnn : h ≠ nullptr) :
    (World.run C w prog).ownerCount C h ≤ w.ownerCount C h
    ∧ (C.ReleasesOverwritten →
        (World.run C w prog).ownerCount C h + (World.run C w prog).releaseCount C h
          = w.ownerCount C h + w.releaseCount C h) := by
  induction prog generalizing w with
  | nil => exact ⟨le_refl _, fun _ => rfl⟩
  | cons st rest ih =>
    have hstep := World.exec_counts C hT w st h hnn
    have hrest := ih (w.exec C st)
    have hrun : World.run C w (st :: rest) = World.run C (w.exec C st) rest := rfl
    rw [hrun]
    refine ⟨le_trans hrest.1 hstep.1, fun hR => ?_⟩
    rw [hrest.2 hR, hstep.2 hR]

/-- The single-owner property is kept by every program. -/
theorem World.run_singleOwner {W : Type} (C : WrapperClass W) (hT : C.Transfers)
    (prog : List Statement) (w : World W) (hw : w.SingleOwner C) :
    (World.run C w prog).SingleOwner C := by
  intro h hnn
  exact le_trans (World.run_counts C hT prog w h hnn).1 (hw h hnn)

/-- Ending the lifetime of object `i` leaves slot `i` empty, whatever it held. -/
theorem World.exec_destroy_objects {W : Type} (C : WrapperClass W) (w : World W) (i : Nat) :
    (w.exec C (Statement.destroy i)).objects = w.objects.set i none := by
  rcases hi : w.objects[i]? with _ | _ | a
  · have hlen : w.objects.length ≤ i := List.getElem?_eq_none_iff.mp hi
    simp [World.exec, hi, List.set_eq_of_length_le hlen]
  · simp [World.exec, hi, set_of_getElem? w.objects i none hi]
  · simp [World.exec, hi]

/-- After the lifetimes of the objects `0 .. n - 1` have ended, the slots below
`n` are empty and the others hold what they held. -/
theorem World.run_destroy_range {W : Type} (C : WrapperClass W) (w : World W) (n : Nat) :
    ∀ i, (World.run C w ((List.range n).map Statement.destroy)).objects[i]? =
      if i < n then (w.objects[i]?).map (fun _ => none) else w.objects[i]? := by
  induction n with
  | zero => intro i; simp [World.run]
  | succ k ih =>
    intro i
    have hrun : World.run C w ((List.range (k + 1)).map Statement.destroy)
        = (World.run C w ((List.range k).map Statement.destroy)).exec C
            (Statement.destroy k) := by
      simp [World.run, List.range_succ, List.foldl_append]
    rw [hrun, World.exec_destroy_objects]
    by_cases hik : i = k
    · subst hik
      have hk := ih i
      simp only [lt_irrefl, if_false] at hk
      rcases hi : w.objects[i]? with _ | x
      · have hlen : (World.run C w ((List.range i).map Statement.destroy)).objects.length ≤ i :=
          List.getElem?_eq_none_iff.mp (by rw [hk, hi])
        simp [List.set_eq_of_length_le hlen, hk, hi]
      · have hlen : i < (World.run C w ((List.range i).map Statement.destroy)).objects.length :=
          (List.getElem?_eq_some_iff.mp (by rw [hk, hi])).1
        simp [List.getElem?_set_self hlen]
    · have hiff : i < k + 1 ↔ i < k := by omega
      rw [List.getElem?_set_ne (fun e => hik e.symm), ih i]
      simp only [hiff]

/-- Once every lifetime has ended, no object owns anything. -/
theorem World.destroyAll_ownerCount {W : Type} (C : WrapperClass W) (w : World W)
    (h : Handle) : (World.destroyAll C w).ownerCount C h = 0 := by
  unfold World.ownerCount
  rw [List.countP_eq_zero]
  intro o ho
  obtain ⟨i, hi⟩ := List.mem_iff_getElem?.mp ho
  unfold World.destroyAll at hi
  rw [World.run_destroy_range] at hi
  by_cases hlt : i < w.objects.length
  · rw [if_pos hlt] at hi
    rcases hx : w.objects[i]? with _ | x
    · simp [hx] at hi
    · simp only [hx, Option.map_some', Option.some.injEq] at hi
      subst hi
      simp [WrapperClass.owns]
  · rw [if_neg hlt, List.getElem?_eq_none (by omega)] at hi
    simp at hi

/-- The owners of `h` among freshly created objects of a class without ownership
flag are the objects that hold `h`. -/
theorem World.start_ownerCount {W : Type} (C : WrapperClass W) (ho : ∀ a, C.owner a = true)
    (ws : List W) (h : Handle) :
    (World.start ws).ownerCount C h = (ws.map C.handle).count h := by
  induction ws with
  | nil => rfl
  | cons x rest ih =>
    have hcons : (World.start (x :: rest)).ownerCount C h
        = (World.start rest).ownerCount C h + (C.owns h (some x)).toNat := by
      cases hc : C.owns h (some x) <;>
        simp [World.start, World.ownerCount, List.countP_cons, hc]
    rw [hcons, ih, C.owns_toNat ho, List.map_cons, List.count_cons]
    by_cases hx : C.handle x = h <;> simp [hx]

/-- In a class that releases what it overwrites, over a whole lifetime the
teardown function is called on a non-null handle as many times as objects held
it at the start. -/
theorem World.lifetime_releaseCount {W : Type} (C : WrapperClass W) (hT : C.Transfers)
    (hR : C.ReleasesOverwritten) (ws : List W) (prog : List Statement) (h : Handle)
    (hnn : h ≠ nullptr) :
    (World.lifetime C ws prog).releaseCount C h = (ws.map C.handle).count h := by
  have h1 := (World.run_counts C hT prog (World.start ws) h hnn).2 hR
  have h2 := (World.run_counts C hT
    ((List.range (World.run C (World.start ws) prog).objects.length).map Statement.destroy)
    (World.run C (World.start ws) prog) h hnn).2 hR
  have h3 := World.destroyAll_ownerCount C (World.run C (World.start ws) prog) h
  have h4 := World.start_ownerCount C hR.1 ws h
  have h5 : (World.start ws).releaseCount C h = 0 := rfl
  unfold World.lifetime
  unfold World.destroyAll at h3 ⊢
  omega

theorem Surface_wrapper_releases : Surface.wrapper.ReleasesOverwritten := by
  refine ⟨fun _ => rfl, ?_, ?_⟩
  · intro a b h _ hab
    have hab2 : a.m_surface ≠ b.m_surface := hab
    have hcalls : (Surface.moveAssign a b).calls = [NativeCall.SDL_FreeSurface a.m_surface] := by
      simp [Surface.moveAssign, hab2]
    show List.count (NativeCall.SDL_FreeSurface h) (Surface.moveAssign a b).calls
      = if a.m_surface = h then 1 else 0
    rw [hcalls]
    by_cases hah : a.m_surface = h <;> simp [hah, List.count_cons]
  · intro a h _
    show List.count (NativeCall.SDL_FreeSurface h) [NativeCall.SDL_FreeSurface a.m_surface]
      = if a.m_surface = h then 1 else 0
    by_cases hah : a.m_surface = h <;> simp [hah, List.count_cons]

theorem Texture_wrapper_releases : Texture.wrapper.ReleasesOverwritten := by
  refine ⟨fun _ => rfl, ?_, ?_⟩
  · intro a b h _ hab
    have hab2 : a.m_texture ≠ b.m_texture := hab
    have hcalls : (Texture.moveAssign a b).calls = [NativeCall.SDL_DestroyTexture a.m_texture] := by
      simp [Texture.moveAssign, hab2]
    show List.count (NativeCall.SDL_DestroyTexture h) (Texture.moveAssign a b).calls
      = if a.m_texture = h then 1 else 0
    rw [hcalls]
    by_cases hah : a.m_texture = h <;> simp [hah, List.count_cons]
  · intro a h _
    show List.count (NativeCall.SDL_DestroyTexture h) [NativeCall.SDL_DestroyTexture a.m_texture]
      = if a.m_texture = h then 1 else 0
    by_cases hah : a.m_texture = h <;> simp [hah, List.count_cons]

theorem Renderer_wrapper_releases : Renderer.wrapper.ReleasesOverwritten := by
  refine ⟨fun _ => rfl, ?_, ?_⟩
  · intro a b h _ hab
    have hab2 : a.m_renderer ≠ b.m_renderer := hab
    have hcalls : (Renderer.moveAssign a b).calls = [NativeCall.SDL_DestroyRenderer a.m_renderer] := by
      simp [Renderer.moveAssign, hab2]
    show List.count (NativeCall.SDL_DestroyRenderer h) (Renderer.moveAssign a b).calls
      = if a.m_renderer = h then 1 else 0
    rw [hcalls]
    by_cases hah : a.m_renderer = h <;> simp [hah, List.count_cons]
  · intro a h _
    show List.count (NativeCall.SDL_DestroyRenderer h) [NativeCall.SDL_DestroyRenderer a.m_renderer]
      = if a.m_renderer = h then 1 else 0
    by_cases hah : a.m_renderer = h <;> simp [hah, List.count_cons]

theorem Window_wrapper_releases : Window.wrapper.ReleasesOverwritten := by
  refine ⟨fun _ => rfl, ?_, ?_⟩
  · intro a b h _ hab
    have hab2 : a.m_window ≠ b.m_window := hab
    have hcalls : (Window.moveAssign a b).calls = [NativeCall.SDL_DestroyWindow a.m_window] := by
      simp [Window.moveAssign, hab2]
    show List.count (NativeCall.SDL_DestroyWindow h) (Window.moveAssign a b).calls
      = if a.m_window = h then 1 else 0
    rw [hcalls]
    by_cases hah : a.m_window = h <;> simp [hah, List.count_cons]
  · intro a h _
    show List.count (NativeCall.SDL_DestroyWindow h) [NativeCall.SDL_DestroyWindow a.m_window]
      = if a.m_window = h then 1 else 0
    by_cases hah : a.m_window = h <;> simp [hah, List.count_cons]

/-- The calls `if (m_handle) SDL_UnloadObject(m_handle);` makes, counted on a
non-null handle. -/
theorem SharedObject.count_unload (x h : Handle) (hnn : h ≠ nullptr) :
    List.count (NativeCall.SDL_UnloadObject h)
        (if x ≠ nullptr then [NativeCall.SDL_UnloadObject x] else [])
      = if x = h then 1 else 0 := by
  by_cases hx : x = nullptr
  · have hxh : ¬ (x = h) := fun e => hnn (by rw [← e, hx])
    rw [if_neg (not_not.mpr hx), if_neg hxh]
    rfl
  · rw [if_pos hx]
    by_cases hxh : x = h
    · rw [if_pos hxh, hxh]
      simp
    · rw [if_neg hxh]
      simp [List.count_cons, hxh]

theorem SharedObject_wrapper_releases : SharedObject.wrapper.ReleasesOverwritten := by
  refine ⟨fun _ => rfl, ?_, ?_⟩
  · intro a b h hnn hab
    have hab2 : a.m_handle ≠ b.m_handle := hab
    have hcalls : (SharedObject.moveAssign a b).calls
        = if a.m_handle ≠ nullptr then [NativeCall.SDL_UnloadObject a.m_handle] else [] := by
      simp [SharedObject.moveAssign, hab2]
    show List.count (NativeCall.SDL_UnloadObject h) (SharedObject.moveAssign a b).calls
      = if a.m_handle = h then 1 else 0
    rw [hcalls]
    exact SharedObject.count_unload a.m_handle h hnn
  · intro a h hnn
    exact SharedObject.count_unload a.m_handle h hnn

/-- In a class that releases what it overwrites: over a whole lifetime the
teardown function is called on a non-null handle as many times as objects held
it at the start, hence exactly once when the objects held pairwise distinct
handles and one of them held it. -/
theorem World.lifetime_released_once {W : Type} (C : WrapperClass W) (hT : C.Transfers)
    (hR : C.ReleasesOverwritten) (ws : List W) (prog : List Statement) (h : Handle)
    (hnn : h ≠ nullptr) :
    (World.lifetime C ws prog).releaseCount C h = (ws.map C.handle).count h
    ∧ ((ws.map C.handle).Nodup → h ∈ ws.map C.handle →
        (World.lifetime C ws prog).releaseCount C h = 1) := by
  have hcount := World.lifetime_releaseCount C hT hR ws prog h hnn
  refine ⟨hcount, fun hnd hmem => ?_⟩
  rw [hcount]
  exact List.count_eq_one_of_mem hnd hmem

/-! ## The lifetime claims -/

/-- C2. For each of the nine classes, in any world in which every non-null handle
is owned by at most one live object, after any program made of move-assignments,
move-constructions and destructions every non-null handle is still owned by at
most one live object. -/
theorem single_owner_preserved (prog : List Statement) :
    (∀ w : World Surface, w.SingleOwner Surface.wrapper →
        (World.run Surface.wrapper w prog).SingleOwner Surface.wrapper)
    ∧ (∀ w : World Texture, w.SingleOwner Texture.wrapper →
        (World.run Texture.wrapper w prog).SingleOwner Texture.wrapper)
    ∧ (∀ w : World Renderer, w.SingleOwner Renderer.wrapper →
        (World.run Renderer.wrapper w prog).SingleOwner Renderer.wrapper)
    ∧ (∀ w : World Window, w.SingleOwner Window.wrapper →
        (World.run Window.wrapper w prog).SingleOwner Window.wrapper)
    ∧ (∀ w : World SharedObject, w.SingleOwner SharedObject.wrapper →
        (World.run SharedObject.wrapper w prog).SingleOwner SharedObject.wrapper)
    ∧ (∀ w : World Cursor, w.SingleOwner Cursor.wrapper →
        (World.run Cursor.wrapper w prog).SingleOwner Cursor.wrapper)
    ∧ (∀ w : World Haptic, w.SingleOwner Haptic.wrapper →
        (World.run Haptic.wrapper w prog).SingleOwner Haptic.wrapper)
    ∧ (∀ w : World Joystick, w.SingleOwner Joystick.wrapper →
        (World.run Joystick.wrapper w prog).SingleOwner Joystick.wrapper)
    ∧ (∀ w : World GameController, w.SingleOwner GameController.wrapper →
        (World.run GameController.wrapper w prog).SingleOwner GameController.wrapper) :=
  ⟨World.run_singleOwner _ Surface_wrapper_transfers prog,
   World.run_singleOwner _ Texture_wrapper_transfers prog,
   World.run_singleOwner _ Renderer_wrapper_transfers prog,
   World.run_singleOwner _ Window_wrapper_transfers prog,
   World.run_singleOwner _ SharedObject_wrapper_transfers prog,
   World.run_singleOwner _ Cursor_wrapper_transfers prog,
   World.run_singleOwner _ Haptic_wrapper_transfers prog,
   World.run_singleOwner _ Joystick_wrapper_transfers prog,
   World.run_singleOwner _ GameController_wrapper_transfers prog⟩

/-- C2 on three `Joystick` objects, an owner of handle `1`, a view of handle `1`
and an owner of handle `2`, for the program that assigns the view to the third
object, move-constructs a fourth object from the first and destroys the third. -/
theorem single_owner_preserved_witness :
    World.SingleOwner Joystick.wrapper
        { objects := [some { m_joystick := 1, m_owner := true },
                      some { m_joystick := 1, m_owner := false },
                      some { m_joystick := 2, m_owner := true }],
          trace := [] }
    ∧ World.SingleOwner Joystick.wrapper
        (World.run Joystick.wrapper
          { objects := [some { m_joystick := 1, m_owner := true },
                        some { m_joystick := 1, m_owner := false },
                        some { m_joystick := 2, m_owner := true }],
            trace := [] }
          [Statement.moveAssign 2 1, Statement.moveCtor 0, Statement.destroy 2]) := by
  have hw : World.SingleOwner Joystick.wrapper
      { objects := [some { m_joystick := 1, m_owner := true },
                    some { m_joystick := 1, m_owner := false },
                    some { m_joystick := 2, m_owner := true }],
        trace := [] } := by
    intro h _
    by_cases h1 : (1 : Nat) = h <;> by_cases h2 : (2 : Nat) = h <;>
      simp [World.ownerCount, WrapperClass.owns, Joystick.wrapper, List.countP_cons, h1, h2]
    omega
  exact ⟨hw, (single_owner_preserved
    [Statement.moveAssign 2 1, Statement.moveCtor 0, Statement.destroy 2]).2.2.2.2.2.2.2.1 _ hw⟩

/-- C3. For `Surface`, `Texture`, `Renderer`, `Window` and `SharedObject`, and
every non-null handle `h`: over the lifetime of objects `ws` on which any program
of move-assignments (and move-constructions and destructions) runs before every
object is destroyed, the matching teardown function is called on `h` as many
times as objects of `ws` held `h`, hence exactly once when the objects held
pairwise distinct handles and one of them held `h`; and a move-assignment that
overwrites `h` calls the teardown function on `h` at that moment. -/
theorem release_exactly_once (prog : List Statement) (h : Handle) (hnn : h ≠ nullptr) :
    (∀ ws : List Surface,
      ((World.lifetime Surface.wrapper ws prog).releaseCount Surface.wrapper h
          = (ws.map Surface.m_surface).count h
        ∧ ((ws.map Surface.m_surface).Nodup → h ∈ ws.map Surface.m_surface →
            (World.lifetime Surface.wrapper ws prog).releaseCount Surface.wrapper h = 1))
      ∧ ∀ b : Surface, h ≠ b.m_surface →
          (Surface.moveAssign { m_surface := h } b).calls = [NativeCall.SDL_FreeSurface h])
    ∧ (∀ ws : List Texture,
      ((World.lifetime Texture.wrapper ws prog).releaseCount Texture.wrapper h
          = (ws.map Texture.m_texture).count h
        ∧ ((ws.map Texture.m_texture).Nodup → h ∈ ws.map Texture.m_texture →
            (World.lifetime Texture.wrapper ws prog).releaseCount Texture.wrapper h = 1))
      ∧ ∀ b : Texture, h ≠ b.m_texture →
          (Texture.moveAssign { m_texture := h } b).calls
            = [NativeCall.SDL_DestroyTexture h])
    ∧ (∀ ws : List Renderer,
      ((World.lifetime Renderer.wrapper ws prog).releaseCount Renderer.wrapper h
          = (ws.map Renderer.m_renderer).count h
        ∧ ((ws.map Renderer.m_renderer).Nodup → h ∈ ws.map Renderer.m_renderer →
            (World.lifetime Renderer.wrapper ws prog).releaseCount Renderer.wrapper h = 1))
      ∧ ∀ b : Renderer, h ≠ b.m_renderer →
          (Renderer.moveAssign { m_renderer := h } b).calls
            = [NativeCall.SDL_DestroyRenderer h])
    ∧ (∀ ws : List Window,
      ((World.lifetime Window.wrapper ws prog).releaseCount Window.wrapper h
          = (ws.map Window.m_window).count h
        ∧ ((ws.map Window.m_window).Nodup → h ∈ ws.map Window.m_window →
            (World.lifetime Window.wrapper ws prog).releaseCount Window.wrapper h = 1))
      ∧ ∀ b : Window, h ≠ b.m_window →
          (Window.moveAssign { m_window := h } b).calls = [NativeCall.SDL_DestroyWindow h])
    ∧ (∀ ws : List SharedObject,
      ((World.lifetime SharedObject.wrapper ws prog).releaseCount SharedObject.wrapper h
          = (ws.map SharedObject.m_handle).count h
        ∧ ((ws.map SharedObject.m_handle).Nodup → h ∈ ws.map SharedObject.m_handle →
            (World.lifetime SharedObject.wrapper ws prog).releaseCount
              SharedObject.wrapper h = 1))
      ∧ ∀ b : SharedObject, h ≠ b.m_handle →
          (SharedObject.moveAssign { m_handle := h } b).calls
            = [NativeCall.SDL_UnloadObject h]) := by
  refine ⟨fun ws => ⟨?_, ?_⟩, fun ws => ⟨?_, ?_⟩, fun ws => ⟨?_, ?_⟩, fun ws => ⟨?_, ?_⟩,
    fun ws => ⟨?_, ?_⟩⟩
  · exact World.lifetime_released_once _ Surface_wrapper_transfers Surface_wrapper_releases
      ws prog h hnn
  · intro b hb
    simp [Surface.moveAssign, hb]
  · exact World.lifetime_released_once _ Texture_wrapper_transfers Texture_wrapper_releases
      ws prog h hnn
  · intro b hb
    simp [Texture.moveAssign, hb]
  · exact World.lifetime_released_once _ Renderer_wrapper_transfers Renderer_wrapper_releases
      ws prog h hnn
  · intro b hb
    simp [Renderer.moveAssign, hb]
  · exact World.lifetime_released_once _ Window_wrapper_transfers Window_wrapper_releases
      ws prog h hnn
  · intro b hb
    simp [Window.moveAssign, hb]
  · exact World.lifetime_released_once _ SharedObject_wrapper_transfers
      SharedObject_wrapper_releases ws prog h hnn
  · intro b hb
    simp [SharedObject.moveAssign, hb, hnn]

/-- C3 on three `Surface` objects of handles `1`, `2` and null, for the program
`s0 = std::move(s1); s1 = std::move(s2);` and the handle `1`, which the first
assignment overwrites. -/
theorem release_exactly_once_witness :
    (1 : Handle) ≠ nullptr
    ∧ ([{ m_surface := 1 }, { m_surface := 2 }, { m_surface := nullptr }].map
        Surface.m_surface).Nodup
    ∧ (World.lifetime Surface.wrapper
        [{ m_surface := 1 }, { m_surface := 2 }, { m_surface := nullptr }]
        [Statement.moveAssign 0 1, Statement.moveAssign 1 2]).releaseCount
          Surface.wrapper 1 = 1 :=
  ⟨by decide, by decide,
   ((release_exactly_once [Statement.moveAssign 0 1, Statement.moveAssign 1 2] 1
      (by decide)).1 [{ m_surface := 1 }, { m_surface := 2 }, { m_surface := nullptr }]).1.2
      (by decide) (by decide)⟩

/-- C4 fails on the code. Two objects of handles `1` and `2`, the program
`w0 = std::move(w1);`, then both destroyed: for `Cursor`, `Haptic`, owning
`Joystick` and owning `GameController` the only teardown call of the whole
lifetime is the one on handle `2`; the handle `1`, which the destination held,
is never released. -/
theorem overwritten_handle_never_released :
    ((World.lifetime Cursor.wrapper [{ m_cursor := 1 }, { m_cursor := 2 }]
          [Statement.moveAssign 0 1]).trace = [NativeCall.SDL_FreeCursor 2]
      ∧ (World.lifetime Cursor.wrapper [{ m_cursor := 1 }, { m_cursor := 2 }]
          [Statement.moveAssign 0 1]).releaseCount Cursor.wrapper 1 = 0)
    ∧ ((World.lifetime Haptic.wrapper
          [{ m_haptic := 1, myEffects := [] }, { m_haptic := 2, myEffects := [] }]
          [Statement.moveAssign 0 1]).trace = [NativeCall.SDL_HapticClose 2]
      ∧ (World.lifetime Haptic.wrapper
          [{ m_haptic := 1, myEffects := [] }, { m_haptic := 2, myEffects := [] }]
          [Statement.moveAssign 0 1]).releaseCount Haptic.wrapper 1 = 0)
    ∧ ((World.lifetime Joystick.wrapper
          [Joystick.ctorFromPointer 1, Joystick.ctorFromPointer 2]
          [Statement.moveAssign 0 1]).trace = [NativeCall.SDL_JoystickClose 2]
      ∧ (World.lifetime Joystick.wrapper
          [Joystick.ctorFromPointer 1, Joystick.ctorFromPointer 2]
          [Statement.moveAssign 0 1]).releaseCount Joystick.wrapper 1 = 0)
    ∧ ((World.lifetime GameController.wrapper
          [GameController.ctorFromPointer 1, GameController.ctorFromPointer 2]
          [Statement.moveAssign 0 1]).trace = [NativeCall.SDL_GameControllerClose 2]
      ∧ (World.lifetime GameController.wrapper
          [GameController.ctorFromPointer 1, GameController.ctorFromPointer 2]
          [Statement.moveAssign 0 1]).releaseCount GameController.wrapper 1 = 0) := by
  decide

/-! ## Handles of installed effects -/

/-- No operation on the registry makes it shorter. -/
theorem Haptic.applyOp_count_le (thisPtr : Nat) (err : String) (self : Haptic)
    (op : RegistryOp) :
    self.registeredEffectCount ≤ (Haptic.applyOp thisPtr err self op).registeredEffectCount := by
  cases op with
  | newEffect capabilities rawId e =>
    unfold Haptic.applyOp Haptic.newEffect
    rcases hc : self.isCapableOf (fun _ => capabilities) err e.type with t | b
    · simp [hc]
    · cases b
      · simp [hc]
      · by_cases hneg : rawId < 0
        · simp [hc, hneg]
        · simp [hc, hneg, Haptic.registeredEffectCount]
  | removeEffect id =>
    simp [Haptic.applyOp, Haptic.registeredEffectCount, Haptic.removeEffect_myEffects]

/-- No program of `newEffect` and `removeEffect` makes the registry shorter. -/
theorem Haptic.applyOps_count_le (thisPtr : Nat) (err : String) (ops : List RegistryOp)
    (self : Haptic) :
    self.registeredEffectCount ≤ (Haptic.applyOps thisPtr err self ops).registeredEffectCount := by
  induction ops generalizing self with
  | nil => exact le_refl _
  | cons op rest ih =>
    exact le_trans (Haptic.applyOp_count_le thisPtr err self op)
      (ih (Haptic.applyOp thisPtr err self op))

/-- C11, as stated, fails. The device `5` issues the handle of index `0` for the
native effect `7`; the object is then the destination of a move-assignment from
an object of the device `6` whose registry is empty, and is not destroyed:
`getEffectId` of the issued handle throws `std::out_of_range`. The same happens
to an object that has been moved from. -/
theorem issued_index_invalid_after_move :
    Haptic.newEffect { m_haptic := 5, myEffects := [] } 1 (fun _ => 1) (fun _ _ => 7) ""
        { type := 1, payload := [] }
      = Except.ok ({ m_index := 0, m_owner := some 1 }, { m_haptic := 5, myEffects := [7] })
    ∧ Haptic.getEffectId
        (Haptic.moveAssign { m_haptic := 5, myEffects := [7] }
          { m_haptic := 6, myEffects := [] }).self
        { m_index := 0, m_owner := some 1 } = Except.error Thrown.out_of_range
    ∧ Haptic.getEffectId
        (Haptic.moveCtor { m_haptic := 5, myEffects := [7] }).other
        { m_index := 0, m_owner := some 1 } = Except.error Thrown.out_of_range :=
  ⟨rfl, rfl, rfl⟩

/-- C11, amended. A handle that `newEffect` issued on the `Haptic` object at
`thisPtr` (it carries that owner and a valid index) is within the bounds of the
registry right away, and after any program of `newEffect` and `removeEffect`
operations on the object `getEffectId` of the handle succeeds. -/
theorem issued_index_stays_valid (self : Haptic) (thisPtr : Nat)
    (SDL_HapticQuery : Handle → Nat) (SDL_HapticNewEffect : Handle → Effect → EffectId)
    (err : String) (e : Effect) (eff : InstalledEffect) (after : Haptic)
    (hnew : self.newEffect thisPtr SDL_HapticQuery SDL_HapticNewEffect err e
      = Except.ok (eff, after))
    (hissued : eff.m_owner = some thisPtr) (ops : List RegistryOp) :
    eff.m_index < after.registeredEffectCount
    ∧ ∃ id, (Haptic.applyOps thisPtr err after ops).getEffectId eff = Except.ok id := by
  have hidx : eff.m_index < after.registeredEffectCount := by
    unfold Haptic.newEffect at hnew
    rcases hc : self.isCapableOf SDL_HapticQuery err e.type with t | b
    · simp [hc] at hnew
    · cases b
      · simp only [hc, Except.ok.injEq, Prod.mk.injEq] at hnew
        rw [← hnew.1] at hissued
        simp [InstalledEffect.default] at hissued
      · by_cases hneg : SDL_HapticNewEffect self.m_haptic e < 0
        · simp [hc, hneg] at hnew
        · simp only [hc, hneg, if_false, Except.ok.injEq, Prod.mk.injEq] at hnew
          rw [← hnew.1, ← hnew.2]
          simp [Haptic.registeredEffectCount]
  refine ⟨hidx, ?_⟩
  have hle := Haptic.applyOps_count_le thisPtr err ops after
  have hlt : eff.m_index < (Haptic.applyOps thisPtr err after ops).myEffects.length :=
    lt_of_lt_of_le hidx hle
  refine ⟨(Haptic.applyOps thisPtr err after ops).myEffects[eff.m_index], ?_⟩
  simp [Haptic.getEffectId, List.getElem?_eq_getElem hlt]

/-- C11, amended, on the device `5` with registry `[3]`: the handle of index `1`
issued for the native effect `7` is still valid after `removeEffect(7)`, a further
`newEffect` and `removeEffect(3)`. -/
theorem issued_index_stays_valid_witness :
    Haptic.newEffect { m_haptic := 5, myEffects := [3] } 9 (fun _ => 1) (fun _ _ => 7) ""
        { type := 1, payload := [] }
      = Except.ok ({ m_index := 1, m_owner := some 9 }, { m_haptic := 5, myEffects := [3, 7] })
    ∧ ∃ id, (Haptic.applyOps 9 "" { m_haptic := 5, myEffects := [3, 7] }
        [RegistryOp.removeEffect 7, RegistryOp.newEffect 1 8 { type := 1, payload := [] },
          RegistryOp.removeEffect 3]).getEffectId { m_index := 1, m_owner := some 9 }
        = Except.ok id :=
  ⟨rfl,
   (issued_index_stays_valid { m_haptic := 5, myEffects := [3] } 9 (fun _ => 1)
      (fun _ _ => 7) "" { type := 1, payload := [] } { m_index := 1, m_owner := some 9 }
      { m_haptic := 5, myEffects := [3, 7] } rfl rfl
      [RegistryOp.removeEffect 7, RegistryOp.newEffect 1 8 { type := 1, payload := [] },
        RegistryOp.removeEffect 3]).2⟩

/-- C12 fails on the code. Two handles of index `0`, one of an effect of the
`Haptic` object at address `1` (the source) and one of an effect of the object
at address `2` (the destination): `operator=` compares the indices only, finds
them equal and moves nothing. The source is not empty, the destination does not
refer to the owner the source had, and the destructor of the source destroys
the native effect `7` of its owner. -/
theorem installedEffect_moveAssign_ignores_owner :
    (InstalledEffect.moveAssign { m_index := 0, m_owner := some 2 }
        { m_index := 0, m_owner := some 1 }).other = { m_index := 0, m_owner := some 1 }
    ∧ (InstalledEffect.moveAssign { m_index := 0, m_owner := some 2 }
        { m_index := 0, m_owner := some 1 }).self = { m_index := 0, m_owner := some 2 }
    ∧ InstalledEffect.destructor
        (InstalledEffect.moveAssign { m_index := 0, m_owner := some 2 }
          { m_index := 0, m_owner := some 1 }).other { m_haptic := 5, myEffects := [7] }
      = Except.ok ({ m_haptic := 5, myEffects := [-1] },
          [NativeCall.SDL_HapticDestroyEffect 5 7]) :=
  ⟨rfl, rfl, rfl⟩

/-- The path of `operator=` that does move: for two handles `e2` and `e1` of
different indices, after `e2 = std::move(e1)` the source holds the invalid index
and no owner, so that its destructor destroys no native effect and leaves every
`Haptic` object as it is, and the destination holds the index and the owner the
source had. -/
theorem installedEffect_moveAssign_of_index_ne (e2 e1 : InstalledEffect)
    (hne : e2.m_index ≠ e1.m_index) :
    (InstalledEffect.moveAssign e2 e1).other
        = { m_index := InstalledEffect.invalidIndex, m_owner := none }
    ∧ (∀ owner : Haptic,
        InstalledEffect.destructor (InstalledEffect.moveAssign e2 e1).other owner
          = Except.ok (owner, []))
    ∧ (InstalledEffect.moveAssign e2 e1).self = e1 := by
  simp [InstalledEffect.moveAssign, InstalledEffect.destructor, hne]

/-! ## Rectangles -/

/-- A representable value wraps to itself. -/
theorem wrapInt32_of_representable (z : Int) (hlo : -2147483648 ≤ z) (hhi : z < 2147483648) :
    wrapInt32 z = z := by
  unfold wrapInt32
  omega

/-- C13. For all rectangles `a` and `b`, whatever the signs of their widths and
heights (and also when `x + w` or `y + h` wraps), `a.intersects(b)` equals
`b.intersects(a)`. -/
theorem intersects_symmetric (a b : Rect) : a.intersects b = b.intersects a := by
  rw [Bool.eq_iff_iff]
  simp only [Rect.intersects, Bool.and_eq_true, decide_eq_true_eq, gt_iff_lt]
  tauto

/-- C15, as stated, fails. The rectangle `(5, 5, 0, 0)` is empty, yet it
intersects `(0, 0, 10, 10)` according to `intersects`, while the native
intersection reports none and `inter` returns an empty rectangle. -/
theorem intersects_differs_from_native :
    Rect.empty { x := 5, y := 5, w := 0, h := 0 } = true
    ∧ Rect.intersects { x := 5, y := 5, w := 0, h := 0 } { x := 0, y := 0, w := 10, h := 10 }
        = true
    ∧ (SDL_IntersectRect { x := 5, y := 5, w := 0, h := 0 } { x := 0, y := 0, w := 10, h := 10 }
        Rect.default).1 = false
    ∧ Rect.empty (Rect.inter { x := 5, y := 5, w := 0, h := 0 }
        { x := 0, y := 0, w := 10, h := 10 }) = true := by
  decide

/-- C15, amended. For rectangles `a` and `b` that are not empty (coordinates and
sizes at most `2^29` in absolute value), `a.intersects(b)` is true exactly when
the native intersection reports an intersection, which is exactly when
`a.inter(b)` is not empty. -/
theorem intersects_refines_native_of_nonempty (a b : Rect) (ha : a.Small) (hb : b.Small)
    (hae : a.empty = false) (hbe : b.empty = false) :
    a.intersects b = (SDL_IntersectRect a b Rect.default).1
    ∧ a.intersects b = !(a.inter b).empty := by
  obtain ⟨⟨ax1, ax2⟩, ⟨ay1, ay2⟩, ⟨aw1, aw2⟩, ⟨ah1, ah2⟩⟩ := ha
  obtain ⟨⟨bx1, bx2⟩, ⟨by1, by2⟩, ⟨bw1, bw2⟩, ⟨bh1, bh2⟩⟩ := hb
  have hA : SDL_RectEmpty a = false := hae
  have hB : SDL_RectEmpty b = false := hbe
  have hAw : 0 < a.w ∧ 0 < a.h := by
    simp only [SDL_RectEmpty, Bool.or_eq_false_iff, decide_eq_false_iff_not, not_le] at hA
    exact hA
  have hBw : 0 < b.w ∧ 0 < b.h := by
    simp only [SDL_RectEmpty, Bool.or_eq_false_iff, decide_eq_false_iff_not, not_le] at hB
    exact hB
  have wax : wrapInt32 (a.x + a.w) = a.x + a.w :=
    wrapInt32_of_representable _ (by omega) (by omega)
  have wbx : wrapInt32 (b.x + b.w) = b.x + b.w :=
    wrapInt32_of_representable _ (by omega) (by omega)
  have way : wrapInt32 (a.y + a.h) = a.y + a.h :=
    wrapInt32_of_representable _ (by omega) (by omega)
  have wby : wrapInt32 (b.y + b.h) = b.y + b.h :=
    wrapInt32_of_representable _ (by omega) (by omega)
  have hne : ¬ ((SDL_RectEmpty a || SDL_RectEmpty b) = true) := by
    rw [hA, hB]
    decide
  have e1 : wrapInt32 ((if b.x + b.w < a.x + a.w then b.x + b.w else a.x + a.w)
      - (if b.x > a.x then b.x else a.x))
      = (if b.x + b.w < a.x + a.w then b.x + b.w else a.x + a.w)
        - (if b.x > a.x then b.x else a.x) := by
    apply wrapInt32_of_representable <;> split_ifs <;> omega
  have e2 : wrapInt32 ((if b.y + b.h < a.y + a.h then b.y + b.h else a.y + a.h)
      - (if b.y > a.y then b.y else a.y))
      = (if b.y + b.h < a.y + a.h then b.y + b.h else a.y + a.h)
        - (if b.y > a.y then b.y else a.y) := by
    apply wrapInt32_of_representable <;> split_ifs <;> omega
  have hrun : SDL_IntersectRect a b Rect.default
      = (!SDL_RectEmpty
            { x := if b.x > a.x then b.x else a.x
              y := if b.y > a.y then b.y else a.y
              w := (if b.x + b.w < a.x + a.w then b.x + b.w else a.x + a.w)
                - (if b.x > a.x then b.x else a.x)
              h := (if b.y + b.h < a.y + a.h then b.y + b.h else a.y + a.h)
                - (if b.y > a.y then b.y else a.y) },
          { x := if b.x > a.x then b.x else a.x
            y := if b.y > a.y then b.y else a.y
            w := (if b.x + b.w < a.x + a.w then b.x + b.w else a.x + a.w)
              - (if b.x > a.x then b.x else a.x)
            h := (if b.y + b.h < a.y + a.h then b.y + b.h else a.y + a.h)
              - (if b.y > a.y then b.y else a.y) }) := by
    unfold SDL_IntersectRect
    rw [if_neg hne]
    simp only [wax, wbx, way, wby, e1, e2]
  have hnative : (SDL_IntersectRect a b Rect.default).1 = a.intersects b := by
    rw [hrun, Bool.eq_iff_iff]
    simp only [SDL_RectEmpty, Rect.intersects, Rect.x1, Rect.x2, Rect.y1, Rect.y2, wax, wbx,
      way, wby, Bool.not_eq_true', Bool.or_eq_false_iff, decide_eq_false_iff_not, not_le,
      Bool.and_eq_true, decide_eq_true_eq, gt_iff_lt]
    constructor
    · rintro ⟨h1, h2⟩
      split_ifs at h1 h2 <;> omega
    · rintro ⟨⟨⟨h1, h2⟩, h3⟩, h4⟩
      constructor <;> split_ifs <;> omega
  refine ⟨hnative.symm, ?_⟩
  rw [← hnative]
  simp only [Rect.inter, Rect.empty, hrun]

/-- C15, amended, on the rectangles `(0, 0, 10, 10)` and `(5, 5, 10, 10)`. -/
theorem intersects_refines_native_of_nonempty_witness :
    Rect.empty { x := 0, y := 0, w := 10, h := 10 } = false
    ∧ Rect.empty { x := 5, y := 5, w := 10, h := 10 } = false
    ∧ Rect.intersects { x := 0, y := 0, w := 10, h := 10 } { x := 5, y := 5, w := 10, h := 10 }
        = (SDL_IntersectRect { x := 0, y := 0, w := 10, h := 10 }
            { x := 5, y := 5, w := 10, h := 10 } Rect.default).1 :=
  ⟨by decide, by decide,
   (intersects_refines_native_of_nonempty { x := 0, y := 0, w := 10, h := 10 }
      { x := 5, y := 5, w := 10, h := 10 } (by unfold Rect.Small; decide)
      (by unfold Rect.Small; decide) (by decide) (by decide)).1⟩

/-! ## Vectors -/

/-- A vector whose components are among `-1`, `0`, `1` is its own normalization. -/
theorem Vec2i.normalized_of_unit (a b : Int) (ha : a = -1 ∨ a = 0 ∨ a = 1)
    (hb : b = -1 ∨ b = 0 ∨ b = 1) :
    Vec2i.normalized { x := a, y := b } = some { x := a, y := b } := by
  have hs : Nat.sqrt 2 = 1 := (Nat.eq_sqrt.mpr ⟨by decide, by decide⟩).symm
  have h2 : wrapInt32 (wrapInt32 1 + wrapInt32 1) = 2 := by decide
  rcases ha with rfl | rfl | rfl <;> rcases hb with rfl | rfl | rfl <;>
    simp [Vec2i.normalized, Vec2i.normalize, Vec2i.null, Vec2i.length, Vec2i.sqLength,
      Vec2i.divAssign, h2, hs]

/-- C14. For every integer vector `v` whose squared length `x*x + y*y` does not
overflow, `normalized()` is defined (no division by zero, no square root of a
negative number) and normalizing its result again gives the same vector; and
`normalize()` leaves the zero vector unchanged, without dividing. -/
theorem normalized_idempotent (v : Vec2i) (hno : v.x * v.x + v.y * v.y < 2147483648) :
    (∃ r, v.normalized = some r ∧ r.normalized = some r)
    ∧ Vec2i.normalize { x := 0, y := 0 } = some { x := 0, y := 0 } := by
  refine ⟨?_, rfl⟩
  have hx2 : 0 ≤ v.x * v.x := mul_self_nonneg _
  have hy2 : 0 ≤ v.y * v.y := mul_self_nonneg _
  by_cases hnull : v.null = true
  · have hn : v.normalized = some v := by
      simp [Vec2i.normalized, Vec2i.normalize, hnull]
    exact ⟨v, hn, hn⟩
  · have hxy : v.x ≠ 0 ∧ v.y ≠ 0 := by
      simpa [Vec2i.null] using hnull
    have hsq : v.sqLength = v.x * v.x + v.y * v.y := by
      unfold Vec2i.sqLength
      rw [wrapInt32_of_representable (v.x * v.x) (by omega) (by omega),
        wrapInt32_of_representable (v.y * v.y) (by omega) (by omega),
        wrapInt32_of_representable _ (by omega) (by omega)]
    have hxpos : 0 < v.x * v.x := by
      rcases lt_or_gt_of_ne hxy.1 with h | h
      · exact mul_pos_of_neg_of_neg h h
      · exact mul_pos h h
    have hnpos : 0 < (v.x * v.x + v.y * v.y).toNat := by omega
    have hL : 0 < Nat.sqrt (v.x * v.x + v.y * v.y).toNat := Nat.sqrt_pos.mpr hnpos
    have habs : ∀ z : Int, z * z ≤ v.x * v.x + v.y * v.y →
        z.natAbs ≤ Nat.sqrt (v.x * v.x + v.y * v.y).toNat := by
      intro z hz
      rw [Nat.le_sqrt]
      have h1 : ((z.natAbs * z.natAbs : Nat) : Int) = z * z := Int.natAbs_mul_self
      omega
    have hunit : ∀ z : Int, z * z ≤ v.x * v.x + v.y * v.y →
        (z.tdiv (Int.ofNat (Nat.sqrt (v.x * v.x + v.y * v.y).toNat)) = -1
          ∨ z.tdiv (Int.ofNat (Nat.sqrt (v.x * v.x + v.y * v.y).toNat)) = 0
          ∨ z.tdiv (Int.ofNat (Nat.sqrt (v.x * v.x + v.y * v.y).toNat)) = 1) := by
      intro z hz
      have h1 := Int.natAbs_tdiv z (Int.ofNat (Nat.sqrt (v.x * v.x + v.y * v.y).toNat))
      have h2 : z.natAbs / Nat.sqrt (v.x * v.x + v.y * v.y).toNat ≤ 1 :=
        Nat.div_le_of_le_mul (by simpa using habs z hz)
      have h3 : (z.tdiv (Int.ofNat (Nat.sqrt (v.x * v.x + v.y * v.y).toNat))).natAbs ≤ 1 := by
        rw [h1]
        exact h2
      omega
    have hrun : v.normalized
        = some { x := v.x.tdiv (Int.ofNat (Nat.sqrt (v.x * v.x + v.y * v.y).toNat))
                 y := v.y.tdiv (Int.ofNat (Nat.sqrt (v.x * v.x + v.y * v.y).toNat)) } := by
      have hl0 : ¬ (Int.ofNat (Nat.sqrt (v.x * v.x + v.y * v.y).toNat) = 0) := by
        simp only [Int.ofNat_eq_coe]
        omega
      have hnn : ¬ (v.x * v.x + v.y * v.y < 0) := by omega
      simp only [Vec2i.normalized, Vec2i.normalize, Vec2i.null, Vec2i.length, Vec2i.sqLength]
      have hsq2 := hsq
      simp only [Vec2i.sqLength] at hsq2
      have hl1 : ¬ (Nat.sqrt (v.x * v.x + v.y * v.y).toNat = 0) := by omega
      simp [hsq2, hxy.1, hxy.2, hnn, Vec2i.divAssign, hl1]
    exact ⟨_, hrun, Vec2i.normalized_of_unit _ _ (hunit v.x (by omega)) (hunit v.y (by omega))⟩

/-- C14 on the vector `(3, 4)`, of squared length `25`. -/
theorem normalized_idempotent_witness :
    (3 : Int) * 3 + 4 * 4 < 2147483648
    ∧ ∃ r, Vec2i.normalized { x := 3, y := 4 } = some r ∧ r.normalized = some r :=
  ⟨by decide, (normalized_idempotent { x := 3, y := 4 } (by decide)).1⟩

/-! ## Exceptions -/

/-- C16. For every operation name `f` and every native error string `s`, the
object built by `Exception(f)` while the native error string is `s` has
`what()` equal to `"Function: '" + f + "', SDL error: " + s`; both `f` and `s`
occur in it. -/
theorem exception_what_carries_both (f s : String) :
    (Exception.ctor f s).what = "Function: '" ++ f ++ "', SDL error: " ++ s
    ∧ f.data <:+: (Exception.ctor f s).what.data
    ∧ s.data <:+: (Exception.ctor f s).what.data := by
  refine ⟨rfl, ?_, ?_⟩
  · refine ⟨"Function: '".data, "', SDL error: ".data ++ s.data, ?_⟩
    simp [Exception.what, Exception.ctor, String.data_append]
  · refine ⟨"Function: '".data ++ f.data ++ "', SDL error: ".data, [], ?_⟩
    simp [Exception.what, Exception.ctor, String.data_append]

/-- C17. Whatever the native error slot holds, constructing an `Exception` reads
it into the message and leaves the slot empty; an error object constructed next,
without a new native error in between, carries an empty diagnostic and not the
earlier message. -/
theorem exception_clears_slot (f g slot : String) :
    (Exception.construct f slot).1.what = "Function: '" ++ f ++ "', SDL error: " ++ slot
    ∧ (Exception.construct f slot).2 = ""
    ∧ (Exception.construct g (Exception.construct f slot).2).1.what
        = "Function: '" ++ g ++ "', SDL error: " := by
  refine ⟨rfl, rfl, ?_⟩
  simp [Exception.construct, Exception.what, Exception.ctor, Error.get, Error.clear]

/-- C18 fails on the code. With a native call that reports the failure code `-1`
and the native error string `"e"`: `Renderer::setBlendMode` throws the error
naming `SDL_RenderSetIntegerScale` (the name `setIntScale` uses) and not
`SDL_SetRenderDrawBlendMode`; `Renderer::fillRects` names `SDL_RenderDrawRects`
(the name `drawRects` uses) and not `SDL_RenderFillRects`; `Surface::colorMod`
names `SDL_SetSurfaceColorMod` (the name `setColorMod` uses) and not
`SDL_GetSurfaceColorMod`; `Texture::colorMod` names `SDL_SetTextureColorMod` and
not `SDL_GetTextureColorMod`. -/
theorem thrown_name_is_not_failed_function :
    (Renderer.setBlendMode { m_renderer := 1 } (fun _ _ => -1) 0 "e"
        = Except.error { m_what := "Function: 'SDL_RenderSetIntegerScale', SDL error: e" }
      ∧ Renderer.setIntScale { m_renderer := 1 } (fun _ _ => -1) true "e"
        = Except.error { m_what := "Function: 'SDL_RenderSetIntegerScale', SDL error: e" })
    ∧ (Renderer.fillRects { m_renderer := 1 } (fun _ _ => -1) [] "e"
        = Except.error { m_what := "Function: 'SDL_RenderDrawRects', SDL error: e" }
      ∧ Renderer.drawRects { m_renderer := 1 } (fun _ _ => -1) [] "e"
        = Except.error { m_what := "Function: 'SDL_RenderDrawRects', SDL error: e" })
    ∧ (Surface.colorMod { m_surface := 1 } (fun _ => (-1, 0, 0, 0)) "e"
        = Except.error { m_what := "Function: 'SDL_SetSurfaceColorMod', SDL error: e" }
      ∧ Surface.setColorMod { m_surface := 1 } (fun _ _ _ _ => -1) 0 0 0 "e"
        = Except.error { m_what := "Function: 'SDL_SetSurfaceColorMod', SDL error: e" })
    ∧ (Texture.colorMod { m_texture := 1 } (fun _ => (-1, 0, 0, 0)) "e"
        = Except.error { m_what := "Function: 'SDL_SetTextureColorMod', SDL error: e" }
      ∧ Texture.setColorMod { m_texture := 1 } (fun _ _ _ _ => -1) 0 0 0 "e"
        = Except.error { m_what := "Function: 'SDL_SetTextureColorMod', SDL error: e" })
    ∧ Exception.ctor "SDL_RenderSetIntegerScale" "e"
        ≠ Exception.ctor "SDL_SetRenderDrawBlendMode" "e"
    ∧ Exception.ctor "SDL_RenderDrawRects" "e" ≠ Exception.ctor "SDL_RenderFillRects" "e"
    ∧ Exception.ctor "SDL_SetSurfaceColorMod" "e" ≠ Exception.ctor "SDL_GetSurfaceColorMod" "e"
    ∧ Exception.ctor "SDL_SetTextureColorMod" "e"
        ≠ Exception.ctor "SDL_GetTextureColorMod" "e" :=
  ⟨⟨rfl, rfl⟩, ⟨rfl, rfl⟩, ⟨rfl, rfl⟩, ⟨rfl, rfl⟩, by decide, by decide, by decide, by decide⟩

/-! ## Events -/

/-- C19. `Event::wait(timeout)` throws the error of `SDL_WaitEventTimeout`
exactly when the native timed wait returns `0`, and returns normally exactly when
it returns another value; in both cases the event holds what the native call
left in it. In particular `wait(0)` throws when the native wait, finding the
queue empty, returns `0`. -/
theorem wait_timeout_throws_iff_zero (self : Event)
    (SDL_WaitEventTimeout : SDL_Event → Int → Int × SDL_Event) (timeout : Int)
    (err : String) :
    ((self.wait SDL_WaitEventTimeout timeout err).1
        = Except.error (Exception.ctor "SDL_WaitEventTimeout" err)
      ↔ (SDL_WaitEventTimeout self.ptr timeout).1 = 0)
    ∧ ((self.wait SDL_WaitEventTimeout timeout err).1 = Except.ok ()
      ↔ (SDL_WaitEventTimeout self.ptr timeout).1 ≠ 0)
    ∧ (self.wait SDL_WaitEventTimeout timeout err).2
        = Event.from (SDL_WaitEventTimeout self.ptr timeout).2
    ∧ ((self.wait (fun e _ => (0, e)) 0 err).1
        = Except.error (Exception.ctor "SDL_WaitEventTimeout" err)) := by
  refine ⟨?_, ?_, rfl, ?_⟩
  · by_cases h0 : (SDL_WaitEventTimeout self.ptr timeout).1 = 0 <;> simp [Event.wait, h0]
  · by_cases h0 : (SDL_WaitEventTimeout self.ptr timeout).1 = 0 <;> simp [Event.wait, h0]
  · simp [Event.wait]

/-- The callbacks registered by `filterQueue` and `addWatcher`: when the library
calls back with the registered data pointer, `callFilter` finds the object and
returns what its predicate returns on its user data and the event. -/
theorem EventFilter.callFilter_of_this (objectAt : Nat → Option EventFilter)
    (self : EventFilter) (thisPtr : Nat) (f : Nat → Event → Bool) (event : SDL_Event)
    (hobj : objectAt thisPtr = some self) (hf : self.m_filter = some f) :
    EventFilter.callFilter objectAt (self.filterQueue thisPtr).userdata event
        = some (if f self.m_userdata (Event.from event) then 1 else 0)
    ∧ EventFilter.callFilter objectAt (self.addWatcher thisPtr).1.userdata event
        = some (if f self.m_userdata (Event.from event) then 1 else 0) := by
  simp [EventFilter.callFilter, EventFilter.filterQueue, EventFilter.addWatcher,
    EventNativeCall.userdata, hobj, hf]

/-- C20 fails on the code for `set`. An `EventFilter` lives at address `100`,
with a predicate that accepts the events of type `7` and the user data pointer
`200`, where no `EventFilter` lives. After `filterQueue` or `addWatcher` the
callback invoked with the registered pointer returns the result of the
predicate (`1` for an event of type `7`). `set` registers the user data pointer
`200` instead of the address of the object, so the callback invoked with the
registered pointer treats the user data as an `EventFilter`: the predicate is
not reached. -/
theorem set_registers_userdata_not_this :
    EventFilter.callFilter
        (fun a => if a = 100 then
          some { m_filter := some (fun _ e => e.type == 7), m_userdata := 200,
                 m_isWatcher := false } else none)
        (EventFilter.filterQueue
          { m_filter := some (fun _ e => e.type == 7), m_userdata := 200, m_isWatcher := false }
          100).userdata { type := 7, payload := [] } = some 1
    ∧ EventFilter.callFilter
        (fun a => if a = 100 then
          some { m_filter := some (fun _ e => e.type == 7), m_userdata := 200,
                 m_isWatcher := false } else none)
        (EventFilter.addWatcher
          { m_filter := some (fun _ e => e.type == 7), m_userdata := 200, m_isWatcher := false }
          100).1.userdata { type := 7, payload := [] } = some 1
    ∧ EventFilter.set
        { m_filter := some (fun _ e => e.type == 7), m_userdata := 200, m_isWatcher := false }
        100 = EventNativeCall.SDL_SetEventFilter true 200
    ∧ EventFilter.callFilter
        (fun a => if a = 100 then
          some { m_filter := some (fun _ e => e.type == 7), m_userdata := 200,
                 m_isWatcher := false } else none)
        (EventFilter.set
          { m_filter := some (fun _ e => e.type == 7), m_userdata := 200, m_isWatcher := false }
          100).userdata { type := 7, payload := [] } = none :=
  ⟨rfl, rfl, rfl, rfl⟩

/-! ## Vectors and rectangles: null, containment, clamping -/

/-- C22. `null()` is true exactly when at least one component is zero;
`normalize()` leaves unchanged every vector that has a zero component, such as
`(3, 0)` and `(0, -7)`; a vector that `normalize()` changes has both components
non-zero, and for such a vector `normalize()` is the division by the length. -/
theorem null_iff_some_component_zero :
    (∀ v : Vec2i, v.null = true ↔ (v.x = 0 ∨ v.y = 0))
    ∧ (∀ v : Vec2i, (v.x = 0 ∨ v.y = 0) → v.normalize = some v)
    ∧ Vec2i.normalize { x := 3, y := 0 } = some { x := 3, y := 0 }
    ∧ Vec2i.normalize { x := 0, y := -7 } = some { x := 0, y := -7 }
    ∧ (∀ v r : Vec2i, v.normalize = some r → r ≠ v → v.x ≠ 0 ∧ v.y ≠ 0)
    ∧ (∀ v : Vec2i, v.x ≠ 0 → v.y ≠ 0 → v.normalize = v.length.bind v.divAssign) := by
  have hnull : ∀ v : Vec2i, v.null = true ↔ (v.x = 0 ∨ v.y = 0) := by
    intro v
    simp [Vec2i.null]
  have hkeep : ∀ v : Vec2i, (v.x = 0 ∨ v.y = 0) → v.normalize = some v := by
    intro v hv
    simp [Vec2i.normalize, (hnull v).mpr hv]
  refine ⟨hnull, hkeep, hkeep _ (Or.inr rfl), hkeep _ (Or.inl rfl), ?_, ?_⟩
  · intro v r hr hne
    by_contra hcon
    have hz : v.x = 0 ∨ v.y = 0 := by
      by_cases hx : v.x = 0
      · exact Or.inl hx
      · by_cases hy : v.y = 0
        · exact Or.inr hy
        · exact absurd ⟨hx, hy⟩ hcon
    rw [hkeep v hz] at hr
    exact hne (Option.some.inj hr).symm
  · intro v hx hy
    have hn : v.null = false := by
      simp [Vec2i.null, hx, hy]
    unfold Vec2i.normalize
    rw [hn]
    cases v.length <;> rfl

/-- C23. A point that two rectangles both contain makes them intersect; and a
rectangle with width `<= 0` or height `<= 0`, of coordinates small enough not to
overflow, contains no point. -/
theorem contains_both_implies_intersects (a b : Rect) (px py : Int) :
    (a.contains px py = true → b.contains px py = true → a.intersects b = true)
    ∧ (a.NoOverflow → (a.w ≤ 0 ∨ a.h ≤ 0) → a.contains px py = false) := by
  constructor
  · intro ha hb
    simp only [Rect.contains, Rect.intersects, Bool.and_eq_true, decide_eq_true_eq, ge_iff_le,
      gt_iff_lt] at ha hb ⊢
    obtain ⟨⟨⟨a1, a2⟩, a3⟩, a4⟩ := ha
    obtain ⟨⟨⟨b1, b2⟩, b3⟩, b4⟩ := hb
    exact ⟨⟨⟨lt_of_le_of_lt a1 b2, lt_of_le_of_lt b1 a2⟩, lt_of_le_of_lt a3 b4⟩,
      lt_of_le_of_lt b3 a4⟩
  · rintro ⟨⟨x1, x2⟩, ⟨y1, y2⟩⟩ hempty
    have wx : wrapInt32 (a.x + a.w) = a.x + a.w := wrapInt32_of_representable _ x1 x2
    have wy : wrapInt32 (a.y + a.h) = a.y + a.h := wrapInt32_of_representable _ y1 y2
    rw [Bool.eq_false_iff]
    intro hc
    simp only [Rect.contains, Rect.x1, Rect.x2, Rect.y1, Rect.y2, wx, wy, Bool.and_eq_true,
      decide_eq_true_eq, ge_iff_le] at hc
    omega

/-- C23 on the rectangles `(0, 0, 10, 10)` and `(5, 5, 10, 10)` and the point
`(7, 7)`, and on the empty rectangle `(0, 0, 0, 10)`. -/
theorem contains_both_implies_intersects_witness :
    Rect.contains { x := 0, y := 0, w := 10, h := 10 } 7 7 = true
    ∧ Rect.contains { x := 5, y := 5, w := 10, h := 10 } 7 7 = true
    ∧ Rect.intersects { x := 0, y := 0, w := 10, h := 10 } { x := 5, y := 5, w := 10, h := 10 }
        = true
    ∧ Rect.contains { x := 0, y := 0, w := 0, h := 10 } 0 0 = false :=
  ⟨by decide, by decide,
   (contains_both_implies_intersects { x := 0, y := 0, w := 10, h := 10 }
      { x := 5, y := 5, w := 10, h := 10 } 7 7).1 (by decide) (by decide),
   (contains_both_implies_intersects { x := 0, y := 0, w := 0, h := 10 }
      { x := 0, y := 0, w := 0, h := 10 } 0 0).2 (by unfold Rect.NoOverflow; decide)
      (Or.inl (by decide))⟩

/-- C24, as stated, fails. The box `(2147483647, 0, 1, 10)` has `w >= 0` and
`h >= 0`, but its sum `x + w` is not representable in `int` and wraps to
`-2147483648`: the vector `(5, 0)` is clamped to `x = -2147483648`, below
`box.x`; and the vector `(2147483647, 0)`, which satisfies
`box.x <= x <= box.x + box.w`, is not left as it is. -/
theorem clamped_leaves_box_on_overflow :
    ((0 : Int) ≤ 1 ∧ (0 : Int) ≤ 10)
    ∧ (Vec2i.clamped { x := 5, y := 0 } { x := 2147483647, y := 0, w := 1, h := 10 }).x
        = -2147483648
    ∧ ¬ ((2147483647 : Int)
        ≤ (Vec2i.clamped { x := 5, y := 0 } { x := 2147483647, y := 0, w := 1, h := 10 }).x)
    ∧ ((2147483647 : Int) ≤ 2147483647 ∧ (2147483647 : Int) ≤ 2147483647 + 1)
    ∧ Vec2i.clamped { x := 2147483647, y := 0 } { x := 2147483647, y := 0, w := 1, h := 10 }
        ≠ { x := 2147483647, y := 0 } := by
  decide

/-- C24, amended. For every box with `w >= 0` and `h >= 0` whose sums `x + w` and
`y + h` are representable in `int`, `clamped(box)` lies in the closed box, upper
bounds included, and is the input when the input lies in the closed box; and for
every box whatsoever, also when the sums wrap, clamping twice is clamping
once. -/
theorem clamped_is_projection (v : Vec2i) (box : Rect) :
    (box.NoOverflow → 0 ≤ box.w → 0 ≤ box.h →
      (box.x ≤ (v.clamped box).x ∧ (v.clamped box).x ≤ box.x + box.w)
      ∧ (box.y ≤ (v.clamped box).y ∧ (v.clamped box).y ≤ box.y + box.h))
    ∧ (box.NoOverflow → (box.x ≤ v.x ∧ v.x ≤ box.x + box.w) →
        (box.y ≤ v.y ∧ v.y ≤ box.y + box.h) → v.clamped box = v)
    ∧ (v.clamped box).clamped box = v.clamped box := by
  refine ⟨?_, ?_, ?_⟩
  · rintro ⟨⟨x1, x2⟩, ⟨y1, y2⟩⟩ hw hh
    have wx : wrapInt32 (box.x + box.w) = box.x + box.w := wrapInt32_of_representable _ x1 x2
    have wy : wrapInt32 (box.y + box.h) = box.y + box.h := wrapInt32_of_representable _ y1 y2
    simp only [Vec2i.clamped, Vec2i.clamp, wx, wy]
    omega
  · rintro ⟨⟨x1, x2⟩, ⟨y1, y2⟩⟩ hx hy
    have wx : wrapInt32 (box.x + box.w) = box.x + box.w := wrapInt32_of_representable _ x1 x2
    have wy : wrapInt32 (box.y + box.h) = box.y + box.h := wrapInt32_of_representable _ y1 y2
    obtain ⟨vx, vy⟩ := v
    simp only [Vec2i.clamped, Vec2i.clamp, wx, wy, Vec2i.mk.injEq]
    simp only at hx hy
    omega
  · simp only [Vec2i.clamped, Vec2i.clamp, Vec2i.mk.injEq]
    generalize wrapInt32 (box.x + box.w) = cx
    generalize wrapInt32 (box.y + box.h) = cy
    omega

/-- C24, amended, on the box `(0, 0, 10, 5)` and the vector `(12, -3)`, clamped
to `(10, 0)`. -/
theorem clamped_is_projection_witness :
    Rect.NoOverflow { x := 0, y := 0, w := 10, h := 5 }
    ∧ (0 ≤ (Vec2i.clamped { x := 12, y := -3 } { x := 0, y := 0, w := 10, h := 5 }).x
      ∧ (Vec2i.clamped { x := 12, y := -3 } { x := 0, y := 0, w := 10, h := 5 }).x ≤ 0 + 10) :=
  ⟨by unfold Rect.NoOverflow; decide,
   ((clamped_is_projection { x := 12, y := -3 } { x := 0, y := 0, w := 10, h := 5 }).1
      (by unfold Rect.NoOverflow; decide) (by decide) (by decide)).1⟩

/-! ## Texture locks, surfaces, windows and the event filter -/

/-- C21 fails on the code. `Texture::lock()` on the texture `1` when
`SDL_LockTexture` succeeds and `SDL_AllocFormat` returns null: the construction
throws the error of `SDL_AllocFormat` after the calls `SDL_LockTexture`,
`SDL_QueryTexture`, `SDL_AllocFormat`, with no `SDL_UnlockTexture`, so one native
lock is left held. When the construction succeeds the destructor unlocks, and
when `SDL_LockTexture` itself fails no lock is held. -/
theorem failed_lock_leaves_texture_locked :
    (Texture.lock { m_texture := 1 } (fun _ _ => (0, 9, 16)) (fun _ => (7, 4, 3))
        (fun _ => nullptr) "e").2
      = Except.error { m_what := "Function: 'SDL_AllocFormat', SDL error: e" }
    ∧ (Texture.lock { m_texture := 1 } (fun _ _ => (0, 9, 16)) (fun _ => (7, 4, 3))
        (fun _ => nullptr) "e").1
      = [TextureCall.SDL_LockTexture 1 0, TextureCall.SDL_QueryTexture 1,
          TextureCall.SDL_AllocFormat 7]
    ∧ TextureCall.heldLocks 1
        (Texture.lock { m_texture := 1 } (fun _ _ => (0, 9, 16)) (fun _ => (7, 4, 3))
          (fun _ => nullptr) "e").1 = 1
    ∧ TextureCall.heldLocks 1
        ((Texture.lock { m_texture := 1 } (fun _ _ => (0, 9, 16)) (fun _ => (7, 4, 3))
            (fun _ => 5) "e").1
          ++ Texture.Lock.destructor
              { m_texture := 1, m_pixels := 9, m_pitch := 16, m_size := { x := 4, y := 3 },
                m_format := 5 }) = 0
    ∧ TextureCall.heldLocks 1
        (Texture.lock { m_texture := 1 } (fun _ _ => (-1, 0, 0)) (fun _ => (7, 4, 3))
          (fun _ => 5) "e").1 = 0 :=
  ⟨rfl, rfl, by decide, by decide, by decide⟩

/-- C25 fails on the code. For every size, depth and format, `Surface(Vec2i{w, h},
depth, format)` calls `SDL_CreateRGBSurfaceWithFormatFrom(nullptr, w, h, depth,
depth / 8 * w, format)`, which wraps a pixel pointer given by the caller (here
null) and allocates no storage, whereas `Surface(w, h, depth, format)` calls
`SDL_CreateRGBSurfaceWithFormat(0, w, h, depth, format)`. -/
theorem surface_from_size_vector_uses_pixels_overload
    (native : SurfaceCreateCall → Handle) (w h depth : Int) (format : Nat) (err : String) :
    (Surface.ctorVec native { x := w, y := h } depth format err).1
      = SurfaceCreateCall.SDL_CreateRGBSurfaceWithFormatFrom nullptr w h depth
          (wrapInt32 (depth.tdiv 8 * w)) format
    ∧ (Surface.ctorSize native w h depth format err).1
      = SurfaceCreateCall.SDL_CreateRGBSurfaceWithFormat 0 w h depth format
    ∧ (Surface.ctorVec native { x := w, y := h } depth format err).1
      ≠ (Surface.ctorSize native w h depth format err).1 := by
  refine ⟨rfl, rfl, ?_⟩
  simp [Surface.ctorVec, Surface.ctorPixels, Surface.ctorSize]

/-- C28 fails on the code. `release()` makes the same native call as `grab()`,
`SDL_SetWindowGrab(m_window, SDL_TRUE)`: whatever the state was before, after
`release()` the grab of the window is on, as it is after `grab()`. -/
theorem release_turns_grab_on (w : Window) (grab : Handle → Bool) :
    w.release = WindowCall.SDL_SetWindowGrab w.m_window true
    ∧ w.release = w.grab
    ∧ w.grabbed (w.grab.apply grab) = true
    ∧ w.grabbed (w.release.apply grab) = true := by
  simp [Window.release, Window.grab, Window.grabbed, WindowCall.apply]

/-- C29 fails on the code. `unset()` calls `SDL_FilterEvents(nullptr, nullptr)`
and not `SDL_SetEventFilter(nullptr, nullptr)`: after `set()` and then `unset()`
the installed-filter slot of the library still holds the filter that `set()`
installed, whatever it held before. -/
theorem unset_leaves_filter_installed (f : EventFilter) (thisPtr : Nat) (slot : Option Nat) :
    EventFilter.unset = EventNativeCall.SDL_FilterEvents false nullptr
    ∧ EventNativeCall.installedAfter (EventNativeCall.installedAfter slot (f.set thisPtr))
        EventFilter.unset = some f.m_userdata
    ∧ EventNativeCall.installedAfter (EventNativeCall.installedAfter slot (f.set thisPtr))
        (EventNativeCall.SDL_SetEventFilter false nullptr) = none := by
  simp [EventFilter.unset, EventFilter.set, EventNativeCall.installedAfter]

/-! ## The draw colour, and opening every controller -/

/-- C26. When its four native calls succeed, `clear(c)` returns normally, the
target has been cleared with `c`, and the draw colour is what it was before the
call; whereas `fill`, `drawRect` and `drawLine` with a colour argument leave the
draw colour set to that argument. -/
theorem clear_with_color_restores_draw_color (self : Renderer) (st : RenderState)
    (c : Color) (rect : Rect) (p1 p2 : Vec2i) (err : String) :
    self.clearWith st 0 0 0 0 c err
      = (Except.ok (), { drawColor := st.drawColor, target := some c })
    ∧ (self.fillWith st 0 0 c err).2.drawColor = c
    ∧ (self.drawRectWith st 0 0 rect c err).2.drawColor = c
    ∧ (self.drawLineWith st 0 0 p1 p2 c err).2.drawColor = c := by
  refine ⟨rfl, rfl, rfl, rfl⟩

/-- The controllers opened among the device indices below `n`: one owning
controller, holding the handle the native call returned, for each index that is a
game controller and whose opening succeeds, in increasing order. -/
theorem GameController.openAll_range (SDL_IsGameController : Int → Bool)
    (SDL_GameControllerOpen : Int → Handle) (err : String) (n : Nat) :
    (List.range n).foldl
        (GameController.openAllStep SDL_IsGameController SDL_GameControllerOpen err) []
      = ((List.range n).filter (fun (i : Nat) =>
            SDL_IsGameController (i : Int) && decide (SDL_GameControllerOpen (i : Int) ≠ nullptr))).map
          (fun (i : Nat) => ({ m_controller := SDL_GameControllerOpen (i : Int), m_owned := true } :
            GameController)) := by
  induction n with
  | zero => rfl
  | succ k ih =>
    rw [List.range_succ, List.foldl_append, ih, List.filter_append, List.map_append]
    simp only [List.foldl_cons, List.foldl_nil]
    unfold GameController.openAllStep
    by_cases hgc : SDL_IsGameController (k : Int) = true
    · by_cases hopen : SDL_GameControllerOpen (k : Int) = nullptr
      · simp [hgc, hopen, GameController.ctor]
      · have hmoved : ∀ l : List Nat,
            (l.filter (fun (i : Nat) =>
                SDL_IsGameController (i : Int) &&
                  decide (SDL_GameControllerOpen (i : Int) ≠ nullptr))).map
              ((fun x => (GameController.moveCtor x).self) ∘
                (fun (i : Nat) => ({ m_controller := SDL_GameControllerOpen (i : Int), m_owned := true } :
                  GameController)))
            = (l.filter (fun (i : Nat) =>
                SDL_IsGameController (i : Int) &&
                  decide (SDL_GameControllerOpen (i : Int) ≠ nullptr))).map
              (fun (i : Nat) => ({ m_controller := SDL_GameControllerOpen (i : Int), m_owned := true } :
                GameController)) := by
          intro l
          apply List.map_congr_left
          intro i hi
          have hi2 := (List.mem_filter.mp hi).2
          simp only [Bool.and_eq_true, decide_eq_true_eq] at hi2
          have hne : ¬ (nullptr = SDL_GameControllerOpen (i : Int)) := fun e => hi2.2 e.symm
          simp [GameController.moveCtor, GameController.moveAssign, hne]
        simp only [hgc, if_true, GameController.ctor, hopen, if_false, List.map_map, hmoved]
        simp [hgc, hopen]
    · simp [hgc]

/-- C27. `openAllAvailableControllers` is total (an `Exception` of the constructor
is caught inside it) and returns, in increasing order of device index, exactly
one owning controller, holding the handle the open call returned, for each index
`i` in `[0, SDL_NumJoysticks())` such that `SDL_IsGameController(i)` holds and
opening `i` succeeds; the other indices contribute nothing. -/
theorem openAllAvailableControllers_spec (SDL_NumJoysticks : Int)
    (SDL_IsGameController : Int → Bool) (SDL_GameControllerOpen : Int → Handle)
    (err : String) :
    GameController.openAllAvailableControllers SDL_NumJoysticks SDL_IsGameController
        SDL_GameControllerOpen err
      = ((List.range SDL_NumJoysticks.toNat).filter (fun (i : Nat) =>
            SDL_IsGameController (i : Int) && decide (SDL_GameControllerOpen (i : Int) ≠ nullptr))).map
          (fun (i : Nat) => ({ m_controller := SDL_GameControllerOpen (i : Int), m_owned := true } :
            GameController)) :=
  GameController.openAll_range SDL_IsGameController SDL_GameControllerOpen err
    SDL_NumJoysticks.toNat

/-! ## Raw pixels -/

/-- Three bytes combined with shifts and `|`, least significant first, are the
number they spell. -/
theorem or_bytes_little (a b c : Nat) (ha : a < 256) (hb : b < 256) :
    (a ||| (b <<< 8)) ||| (c <<< 16) = a + b * 256 + c * 65536 := by
  have h1 : a ||| (b <<< 8) = 2 ^ 8 * b + a := by
    rw [Nat.shiftLeft_eq, Nat.or_comm, Nat.mul_comm b, ← Nat.mul_add_lt_is_or (by omega) b]
  have h2 : (2 ^ 8 * b + a) ||| (c <<< 16) = 2 ^ 16 * c + (2 ^ 8 * b + a) := by
    rw [Nat.shiftLeft_eq, Nat.or_comm, Nat.mul_comm c, ← Nat.mul_add_lt_is_or (by omega) c]
  rw [h1, h2]
  omega

/-- Three bytes combined with shifts and `|`, most significant first, are the
number they spell. -/
theorem or_bytes_big (a b c : Nat) (hb : b < 256) (hc : c < 256) :
    ((a <<< 16) ||| (b <<< 8)) ||| c = a * 65536 + b * 256 + c := by
  have h1 : (b <<< 8) ||| c = 2 ^ 8 * b + c := by
    rw [Nat.shiftLeft_eq, Nat.mul_comm b, ← Nat.mul_add_lt_is_or (by omega) b]
  have h2 : (a <<< 16) ||| (2 ^ 8 * b + c) = 2 ^ 16 * a + (2 ^ 8 * b + c) := by
    rw [Nat.shiftLeft_eq, Nat.mul_comm a, ← Nat.mul_add_lt_is_or (by omega) a]
  rw [Nat.or_assoc, h1, h2]
  omega

/-- The byte of `raw` selected by a shift and the mask `0xFF`. -/
theorem shift_mask_byte (raw k : Nat) : (raw >>> k) &&& 255 = raw / 2 ^ k % 256 := by
  rw [Nat.shiftRight_eq_div_pow]
  exact Nat.and_pow_two_sub_one_eq_mod _ 8

/-- The low byte of `raw` selected by the mask `0xFF`. -/
theorem mask_byte (raw : Nat) : raw &&& 255 = raw % 256 :=
  Nat.and_pow_two_sub_one_eq_mod raw 8

/-- Reading the byte at `i` after a store at `a`. -/
theorem Memory.write_apply (mem : Memory) (a v i : Nat) :
    Memory.write mem a v i = if i = a then v else mem i := rfl

/-- C30. For every byte order, every 32-bit value `raw` and every memory: when
`BytesPerPixel` is `n` in `{1, 2, 3, 4}`, `getRaw()` after `setRaw(raw)` returns
`raw mod 2^(8*n)`; `setRaw` changes no byte outside the `n` bytes of the pixel;
and for any other `BytesPerPixel`, `setRaw` writes nothing and `getRaw` returns
`0`. -/
theorem raw_round_trip (bigEndian : Bool) (p : Pixel) (mem : Memory) (raw : Nat)
    (hraw : raw < 4294967296) :
    ((p.BytesPerPixel = 1 ∨ p.BytesPerPixel = 2 ∨ p.BytesPerPixel = 3 ∨ p.BytesPerPixel = 4) →
      Pixel.getRaw bigEndian p (Pixel.setRaw bigEndian p mem raw)
        = raw % 2 ^ (8 * p.BytesPerPixel))
    ∧ (∀ a, (a < p.m_target ∨ p.m_target + p.BytesPerPixel ≤ a) →
        Pixel.setRaw bigEndian p mem raw a = mem a)
    ∧ (¬ (p.BytesPerPixel = 1 ∨ p.BytesPerPixel = 2 ∨ p.BytesPerPixel = 3
          ∨ p.BytesPerPixel = 4) →
        Pixel.setRaw bigEndian p mem raw = mem ∧ Pixel.getRaw bigEndian p mem = 0) := by
  obtain ⟨t, n⟩ := p
  have hb1 : raw >>> 8 % 256 < 256 := Nat.mod_lt _ (by decide)
  have hb0 : raw % 256 < 256 := Nat.mod_lt _ (by decide)
  have e1 : ¬ (t + 1 = t) := by omega
  have e2 : ¬ (t + 2 = t) := by omega
  have e3 : ¬ (t + 3 = t) := by omega
  have e4 : ¬ (t = t + 1) := by omega
  have e5 : ¬ (t = t + 2) := by omega
  have e6 : ¬ (t = t + 3) := by omega
  have e7 : ¬ (t + 1 = t + 2) := by omega
  have e8 : ¬ (t + 1 = t + 3) := by omega
  have e9 : ¬ (t + 2 = t + 1) := by omega
  have e10 : ¬ (t + 2 = t + 3) := by omega
  have e11 : ¬ (t + 3 = t + 1) := by omega
  have e12 : ¬ (t + 3 = t + 2) := by omega
  refine ⟨?_, ?_, ?_⟩
  · rintro (h | h | h | h) <;> simp only at h <;> subst h <;> cases bigEndian
    · simp only [Pixel.getRaw, Pixel.setRaw, Memory.write_apply, if_true]
      omega
    · simp only [Pixel.getRaw, Pixel.setRaw, Memory.write_apply, if_true]
      omega
    · simp only [Pixel.getRaw, Pixel.setRaw, storeUint16, loadUint16, Memory.write_apply,
        Bool.false_eq_true, if_true, if_false, e1, e4]
      omega
    · simp only [Pixel.getRaw, Pixel.setRaw, storeUint16, loadUint16, Memory.write_apply,
        if_true, if_false, e1, e4]
      omega
    · simp only [Pixel.getRaw, Pixel.setRaw, Memory.write_apply, shift_mask_byte, mask_byte,
        Bool.false_eq_true, if_true, if_false, e1, e2, e4, e5, e7, e9]
      rw [or_bytes_little _ _ _ hb0 hb1]
      simp only [Nat.shiftRight_eq_div_pow, Nat.reducePow, Nat.reduceMul]
      omega
    · simp only [Pixel.getRaw, Pixel.setRaw, Memory.write_apply, shift_mask_byte, mask_byte,
        if_true, if_false, e1, e2, e4, e5, e7, e9]
      rw [or_bytes_big _ _ _ hb1 hb0]
      simp only [Nat.shiftRight_eq_div_pow, Nat.reducePow, Nat.reduceMul]
      omega
    · simp only [Pixel.getRaw, Pixel.setRaw, storeUint32, loadUint32, Memory.write_apply,
        Bool.false_eq_true, if_true, if_false, e1, e2, e3, e4, e5, e6, e7, e8, e9, e10, e11,
        e12]
      omega
    · simp only [Pixel.getRaw, Pixel.setRaw, storeUint32, loadUint32, Memory.write_apply,
        if_true, if_false, e1, e2, e3, e4, e5, e6, e7, e8, e9, e10, e11, e12]
      omega
  · intro a ha
    simp only at ha
    have a0 : t + 0 ≤ a → ¬ (a < t) := by omega
    rcases n with _ | _ | _ | _ | _ | n
    · rfl
    · have h0 : ¬ (a = t) := by omega
      simp only [Pixel.setRaw, Memory.write_apply, h0, if_false]
    · have h0 : ¬ (a = t) := by omega
      have h1 : ¬ (a = t + 1) := by omega
      cases bigEndian <;>
        simp only [Pixel.setRaw, storeUint16, Memory.write_apply, h0, h1, if_false, if_true,
          Bool.false_eq_true]
    · have h0 : ¬ (a = t) := by omega
      have h1 : ¬ (a = t + 1) := by omega
      have h2 : ¬ (a = t + 2) := by omega
      cases bigEndian <;>
        simp only [Pixel.setRaw, Memory.write_apply, h0, h1, h2, if_false, if_true,
          Bool.false_eq_true]
    · have h0 : ¬ (a = t) := by omega
      have h1 : ¬ (a = t + 1) := by omega
      have h2 : ¬ (a = t + 2) := by omega
      have h3 : ¬ (a = t + 3) := by omega
      cases bigEndian <;>
        simp only [Pixel.setRaw, storeUint32, Memory.write_apply, h0, h1, h2, h3, if_false,
          if_true, Bool.false_eq_true]
    · rfl
  · intro hn
    simp only at hn
    rcases n with _ | _ | _ | _ | _ | n
    · exact ⟨rfl, rfl⟩
    · exact absurd (Or.inl rfl) hn
    · exact absurd (Or.inr (Or.inl rfl)) hn
    · exact absurd (Or.inr (Or.inr (Or.inl rfl))) hn
    · exact absurd (Or.inr (Or.inr (Or.inr rfl))) hn
    · exact ⟨rfl, rfl⟩

/-- C30 for a pixel of three bytes at address `10`, little-endian, and the value
`0x12345678`: the round trip keeps the low three bytes, `0x345678`. -/
theorem raw_round_trip_witness :
    (305419896 : Nat) < 4294967296
    ∧ Pixel.getRaw false { m_target := 10, BytesPerPixel := 3 }
        (Pixel.setRaw false { m_target := 10, BytesPerPixel := 3 } (fun _ => 0) 305419896)
      = 305419896 % 2 ^ (8 * 3) :=
  ⟨by decide,
   (raw_round_trip false { m_target := 10, BytesPerPixel := 3 } (fun _ => 0) 305419896
      (by decide)).1 (Or.inr (Or.inr (Or.inl rfl)))⟩

end SDL
